import Mathlib

/-!
Verification of the `storage` package of google/winops.

The package provides a platform-independent model of block-storage devices
(`Device`, `Partition`) with three OS backends (darwin/diskutil, linux/lsblk,
windows/PowerShell + management API).  We embed the shared data model and the
per-backend operations shallowly: each backend's injected OS commands
(`diskutilCmd`, `lsblkDiskCmd`, `sudoCmd`, `fnGetDisks`, ...) become fields of
a backend structure supplied as an explicit argument, and each Go method that
mutates its receiver becomes a function returning the updated value together
with the error outcome.  Go slice indexing that can go out of range is modelled
by an explicit `panics` outcome.
-/

namespace WinopsStorage

/-- Canonical filesystem descriptions; Go declares `type FileSystem string`. -/
abbrev FileSystem := String

/-- `NTFS FileSystem = "NTFS"` in storage.go. -/
def NTFS : FileSystem := "NTFS"

/-- `ExFAT FileSystem = "exFAT"` in storage.go. -/
def ExFAT : FileSystem := "exFAT"

/-- `FAT FileSystem = "FAT"` in storage.go. -/
def FAT : FileSystem := "FAT"

/-- `FAT32 FileSystem = "FAT32"` in storage.go. -/
def FAT32 : FileSystem := "FAT32"

/-- `APFS FileSystem = "APFS"` in storage.go. -/
def APFS : FileSystem := "APFS"

/-- `UnknownFS FileSystem = "Unknown"` in storage.go. -/
def UnknownFS : FileSystem := "Unknown"

/-- `UnknownModel = "Unknown"` in storage.go. -/
def UnknownModel : String := "Unknown"

/-- Partition styles come from glazier's `go/storage`, a string-based type. -/
abbrev PartitionStyle := String

/-- glazier `GptStyle`. -/
def GptStyle : PartitionStyle := "GPT"

/-- glazier `MbrStyle`. -/
def MbrStyle : PartitionStyle := "MBR"

/-- glazier `UnknownStyle`. -/
def UnknownStyle : PartitionStyle := "Unknown"

/-- The `partStyles` translation table of storage.go, as a partial lookup.
Unmapped strings are handled at each use site with `getD UnknownStyle`,
mirroring the `partStyle, ok := partStyles[...]` idiom. -/
def partStyles (s : String) : Option PartitionStyle :=
  if s = "dos" then some MbrStyle
  else if s = "gpt" then some GptStyle
  else if s = "GPT" then some GptStyle
  else if s = "MBR" then some MbrStyle
  else if s = "GUID_partition_scheme" then some GptStyle
  else if s = "FDisk_partition_scheme" then some MbrStyle
  else none

/-- The `fileSystems` translation table of storage.go. -/
def fileSystems (s : String) : Option FileSystem :=
  if s = "vfat" then some FAT32
  else if s = "XINT13" then some FAT
  else if s = "FAT32" then some FAT32
  else if s = "FAT32 XINT13" then some FAT32
  else if s = "System" then some FAT32
  else if s = "Basic" then some FAT32
  else if s = "IFS" then some NTFS
  else if s = "Windows_NTFS" then some NTFS
  else if s = "Windows_FAT_32" then some FAT32
  else if s = "Microsoft Basic Data" then some FAT32
  else if s = "EFI" then some FAT32
  else if s = "Apple_APFS" then some APFS
  else none

/-- storage.go `Partition`: one disk partition, platform independent. -/
structure Partition where
  disk : String
  id : String
  path : String
  mount : String
  label : String
  fileSystem : FileSystem
  size : Nat
deriving DecidableEq

/-- storage.go `Device`: one attached storage device. -/
structure Device where
  id : String
  path : String
  removable : Bool
  size : Nat
  make : String
  model : String
  partStyle : PartitionStyle
  partitions : List Partition
deriving DecidableEq

/-- The Go zero value `Device{}` (written by darwin `Eject`). -/
def Device.zero : Device :=
  { id := "", path := "", removable := false, size := 0, make := "", model := "",
    partStyle := "", partitions := [] }

/-- The Go zero value `Partition{}`. -/
def Partition.zero : Partition :=
  { disk := "", id := "", path := "", mount := "", label := "", fileSystem := "", size := 0 }

/-- The wrapped sentinel errors of the storage package (storage.go and the
per-platform files), plus `errOther` for errors returned without a sentinel
(`fmt.Errorf` without `%w`, or backend errors forwarded verbatim). -/
inductive StorageErr where
  | errDetectDisk
  | errDisk
  | errEmpty
  | errFormat
  | errInput
  | errNotMounted
  | errNoMatch
  | errPartition
  | errRemoval
  | errUnmarshal
  | errWipe
  | errDiskutil
  | errLsblk
  | errPartRead
  | errFile
  | errSudo
  | errNoOutput
  | errDetectVol
  | errDriveLetter
  | errOSResource
  | errPowershell
  | errOther
deriving DecidableEq

/-- Outcome of a package-level function (`Search`, `New`): a wrapped error, a
Go runtime panic (out-of-range slice index), or a value. -/
inductive Res (α : Type) where
  | err : StorageErr → Res α
  | panics : Res α
  | ok : α → Res α
deriving DecidableEq

/-- Outcome of a method on `Device`/`Partition`: the receiver is mutated in
place in Go, so both the error and the success outcome carry the receiver's
state after the call. -/
inductive Out (α : Type) where
  | err : StorageErr → α → Out α
  | panics : Out α
  | ok : α → Out α
deriving DecidableEq

/-- Outcome of a wrapped OS command whose output is decoded: the command itself
can fail, or its output can fail to unmarshal. -/
inductive CmdErr where
  | cmdFailed
  | unmarshalFailed
deriving DecidableEq

/-- Go `strings.Contains` on `List Char` (pattern first). -/
def listContains (pat : List Char) : List Char → Bool
  | [] => pat.isEmpty
  | c :: rest => pat.isPrefixOf (c :: rest) || listContains pat rest

/-- Go `strings.Contains s pat`. -/
def strContains (s pat : String) : Bool :=
  listContains pat.data s.data

/-! ## Linux backend (storage_linux.go) -/

/-- `blockDevice`: one decoded result row from `lsblk -J`. -/
structure blockDevice where
  name : String
  label : String
  fstype : String
  pttype : String
  type : String
  size : Nat
  hotplug : Bool
  mountpoint : String
  vendor : String
  model : String
deriving DecidableEq

/-- The injected linux OS commands (`lsblkDiskCmd`, `lsblkPartCmd`, `sudoCmd`,
`ioutil.TempDir`, `os.RemoveAll`, and the D-Bus calls used by `Eject`),
supplied as explicit data.  `lsblkDisk`/`lsblkPart` yield the decoded
`blockdevices` list or the failure mode of the command/decoding. -/
structure LinuxBackend where
  lsblkDisk : String → Except CmdErr (List blockDevice)
  lsblkPart : String → Except CmdErr (List blockDevice)
  sudoCmd : List String → Bool
  tempDir : String → String → Option String
  removeAll : String → Bool
  dbusSystemBus : Bool
  dbusGetDriveProp : String → Option String
  dbusPowerOff : String → Bool

/-- The `Partition` value built for one lsblk row in linux `DetectPartitions`. -/
def mkLinuxPartition (part : blockDevice) : Partition :=
  { disk := "", id := part.name, path := "/dev/" ++ part.name,
    mount := part.mountpoint, label := part.label,
    fileSystem := (fileSystems part.fstype).getD UnknownFS, size := part.size }

/-- linux `DetectPartitions`: list the device's block children, keep rows of
type `part`; an empty listing is not an error and leaves `partitions` alone. -/
def Device.detectPartitionsLinux (device : Device) (be : LinuxBackend) (_mount : Bool) :
    Out Device :=
  if device.id = "" then .err .errInput device
  else
    match be.lsblkPart device.id with
    | .error .cmdFailed => .err .errLsblk device
    | .error .unmarshalFailed => .err .errUnmarshal device
    | .ok bds =>
      let partList := bds.filter (fun bd => bd.type == "part")
      if partList.length < 1 then .ok device
      else .ok { device with partitions := partList.map mkLinuxPartition }

/-- The `Device` value built for one lsblk row in linux `Search`. -/
def mkLinuxDevice (bd : blockDevice) : Device :=
  { id := bd.name, path := "/dev/" ++ bd.name, removable := bd.hotplug,
    size := bd.size, make := bd.vendor.trim, model := bd.model.trim,
    partStyle := (partStyles bd.pttype).getD UnknownStyle, partitions := [] }

/-- The device loop of linux `Search`: build each device, eagerly detect its
partitions (any detection failure aborts the whole search with
`errPartRead`), then apply the removable/minSize/maxSize filters. -/
def searchLinuxLoop (be : LinuxBackend) (minSize maxSize : Nat) (removableOnly : Bool) :
    List blockDevice → Res (List Device)
  | [] => .ok []
  | bd :: rest =>
    match (mkLinuxDevice bd).detectPartitionsLinux be false with
    | .err _ _ => .err .errPartRead
    | .panics => .panics
    | .ok device =>
      if removableOnly && !device.removable then
        searchLinuxLoop be minSize maxSize removableOnly rest
      else if device.size < minSize then
        searchLinuxLoop be minSize maxSize removableOnly rest
      else if device.size > maxSize && maxSize ≠ 0 then
        searchLinuxLoop be minSize maxSize removableOnly rest
      else
        match searchLinuxLoop be minSize maxSize removableOnly rest with
        | .err e => .err e
        | .panics => .panics
        | .ok found => .ok (device :: found)

/-- linux `Search`. -/
def SearchLinux (be : LinuxBackend) (deviceID : String) (minSize maxSize : Nat)
    (removableOnly : Bool) : Res (List Device) :=
  match be.lsblkDisk deviceID with
  | .error .cmdFailed => .err .errDetectDisk
  | .error .unmarshalFailed => .err .errUnmarshal
  | .ok bds => searchLinuxLoop be minSize maxSize removableOnly bds

/-- linux `New`: search for the one device with this id.  The Go code checks
`len(devices) > 1` and then returns `devices[0]` unconditionally — for an
empty result slice that index is out of range and the Go runtime panics. -/
def NewLinux (be : LinuxBackend) (deviceID : String) : Res Device :=
  if deviceID = "" then .err .errInput
  else
    match SearchLinux be deviceID 0 0 false with
    | .err _ => .err .errDisk
    | .panics => .panics
    | .ok devices =>
      if devices.length > 1 then .err .errNoMatch
      else
        match devices with
        | [] => .panics
        | d :: _ => .ok d

/-- The partition loop of linux `Dismount`: for each partition with a mount
point, `sudo umount` it (first failure returns immediately, leaving later
partitions untouched and earlier ones already cleared), remove the mount
folder if this library created it, then clear the `mount` field. -/
def dismountLinuxLoop (be : LinuxBackend) : List Partition → List Partition × Option StorageErr
  | [] => ([], none)
  | part :: rest =>
    if part.mount = "" then
      match dismountLinuxLoop be rest with
      | (ps, e) => (part :: ps, e)
    else if !(be.sudoCmd ["umount", part.mount]) then
      (part :: rest, some .errSudo)
    else if strContains part.mount part.id && !(be.removeAll part.mount) then
      (part :: rest, some .errFile)
    else
      match dismountLinuxLoop be rest with
      | (ps, e) => ({ part with mount := "" } :: ps, e)

/-- linux `Dismount`: a device with no partitions is a no-op success. -/
def Device.dismountLinux (device : Device) (be : LinuxBackend) : Out Device :=
  if device.partitions.length < 1 then .ok device
  else
    match dismountLinuxLoop be device.partitions with
    | (ps, some e) => .err e { device with partitions := ps }
    | (ps, none) => .ok { device with partitions := ps }

/-- linux `Wipe`: dismount first, `wipefs -a`, then record an Unknown partition
style and an empty partition list. -/
def Device.wipeLinux (device : Device) (be : LinuxBackend) : Out Device :=
  if device.path = "" then .err .errInput device
  else
    match device.dismountLinux be with
    | .err _ d => .err .errDisk d
    | .panics => .panics
    | .ok d =>
      if !(be.sudoCmd ["wipefs", "-a", d.path]) then .err .errWipe d
      else .ok { d with partStyle := UnknownStyle, partitions := [] }

/-- linux `Partition`: refuse when the in-memory partition table is non-empty,
otherwise `parted` a single FAT32 partition over 100% of the device and record
it in memory with the full device size. -/
def Device.partitionLinux (device : Device) (be : LinuxBackend) (label : String) : Out Device :=
  if device.path = "" then .err .errInput device
  else if device.partitions.length ≠ 0 then .err .errDisk device
  else if !(be.sudoCmd ["parted", "--script", device.path, "--", "mklabel", "gpt",
      "mkpart", label, "fat32", "4096s", "100%", "set", "1", "msftdata", "on", "p"]) then
    .err .errSudo device
  else
    .ok { device with
          partStyle := GptStyle,
          partitions := [{ disk := "", id := device.id ++ "1",
                           path := "/dev/" ++ device.id ++ "1", mount := "", label := "",
                           fileSystem := FAT32, size := device.size }] }

/-- linux `Eject`: power the drive off over D-Bus; the `Device` value is not
modified on success. -/
def Device.ejectLinux (device : Device) (be : LinuxBackend) : Out Device :=
  if device.path = "" then .err .errInput device
  else if !be.dbusSystemBus then .err .errOther device
  else
    match be.dbusGetDriveProp device.path with
    | none => .err .errOther device
    | some drive =>
      if !(be.dbusPowerOff drive) then .err .errOther device
      else .ok device

/-- linux `Mount` (a `Partition` method): no-op success when already mounted or
when the filesystem is unreadable; otherwise create a temp mount folder and
`sudo mount` the partition there. -/
def Partition.mountLinux (part : Partition) (be : LinuxBackend) (base : String) : Out Partition :=
  if part.mount ≠ "" then .ok part
  else if part.fileSystem = UnknownFS then .ok part
  else if part.path = "" then .err .errInput part
  else
    match be.tempDir base part.id with
    | none => .err .errNotMounted part
    | some mntPath =>
      if !(be.sudoCmd ["mount", "--options", "rw,users,umask=000", part.path, mntPath]) then
        .err .errSudo part
      else .ok { part with mount := mntPath }

/-- linux `Format` (a `Partition` method): `mkfs -t vfat` then `fatlabel`. -/
def Partition.formatLinux (part : Partition) (be : LinuxBackend) (label : String) :
    Out Partition :=
  if part.path = "" then .err .errFormat part
  else if !(be.sudoCmd ["mkfs", "-t", "vfat", part.path]) then .err .errSudo part
  else if !(be.sudoCmd ["fatlabel", part.path, label]) then .err .errSudo part
  else .ok part

/-! ## Shared `SelectPartition` (storage.go) -/

/-- The selection logic of `SelectPartition` over the freshly detected
partition list: no partitions is `errEmpty`; filter to those at least
`minSize` large (`errPartition` when none); a blank filesystem returns the
first available partition, otherwise the first available partition of the
requested filesystem (`errNoMatch` when none). -/
def selectFromPartitions (partitions : List Partition) (minSize : Nat) (fs : FileSystem) :
    Except StorageErr Partition :=
  if partitions.length < 1 then .error .errEmpty
  else
    match partitions.filter (fun part => decide (part.size ≥ minSize)) with
    | [] => .error .errPartition
    | a :: arest =>
      if fs = "" then .ok a
      else
        match (a :: arest).find? (fun part => part.fileSystem == fs) with
        | some p => .ok p
        | none => .error .errNoMatch

/-- `SelectPartition` on linux: refresh the partition table via
`DetectPartitions` (failure is `errDisk`), then select. -/
def Device.selectPartitionLinux (device : Device) (be : LinuxBackend) (minSize : Nat)
    (fs : FileSystem) : Res Partition :=
  match device.detectPartitionsLinux be false with
  | .err _ _ => .err .errDisk
  | .panics => .panics
  | .ok d =>
    match selectFromPartitions d.partitions minSize fs with
    | .error e => .err e
    | .ok p => .ok p

/-! ## Darwin backend (storage_darwin.go) -/

/-- `efiPartitionSize`: space reserved for the EFI partition on GPT volumes. -/
def efiPartitionSize : Nat := 209715200

/-- `plistPartition`: one partition in `diskutil list -plist` output. -/
structure plistPartition where
  content : String
  deviceIdentifier : String
  mountPoint : String
  size : Nat
  volumeName : String
deriving DecidableEq

/-- `plistDisk`: one disk in the `AllDisksAndPartitions` plist field. -/
structure plistDisk where
  content : String
  deviceIdentifier : String
  partitions : List plistPartition
  size : Int
deriving DecidableEq

/-- `plistDiskUtilList`: the decoded result of `diskutil list -plist`. -/
structure plistDiskUtilList where
  allDisks : List String
  allDisksAndPartitions : List plistDisk
deriving DecidableEq

/-- `plistDeviceInfo`: the decoded result of `diskutil info -plist`. -/
structure plistDeviceInfo where
  deviceIdentifier : String
  path : String
  removable : Bool
  size : Nat
  fullName : String
  modelName : String
  partitionStyle : String
deriving DecidableEq

/-- The Go zero value `plistDeviceInfo{}` that darwin `New` compares against. -/
def plistDeviceInfo.zero : plistDeviceInfo :=
  { deviceIdentifier := "", path := "", removable := false, size := 0,
    fullName := "", modelName := "", partitionStyle := "" }

/-- Tail of the darwin partition regex `[a-zA-Z]+\ds[0-9]`: a digit, a literal
`s`, and a digit. -/
def regExPartitionTail (l : List Char) : Bool :=
  match l with
  | d0 :: s0 :: d1 :: _ => d0.isDigit && s0 == 's' && d1.isDigit
  | _ => false

/-- After at least one letter of the run has been consumed: consume further
letters, then require the digit-`s`-digit tail. -/
def regExPartitionRun : List Char → Bool
  | [] => false
  | c :: rest => if c.isAlpha then regExPartitionRun rest else regExPartitionTail (c :: rest)

/-- Unanchored search for `[a-zA-Z]+\ds[0-9]` (storage_darwin.go
`regExPartition`), used by darwin `Search` to skip partition identifiers such
as `disk1s1`. -/
def regExPartitionFrom : List Char → Bool
  | [] => false
  | c :: rest => (c.isAlpha && regExPartitionRun rest) || regExPartitionFrom rest

/-- `regExPartition.Match(id)`. -/
def regExPartitionMatch (id : String) : Bool :=
  regExPartitionFrom id.data

/-- Go `strings.Replace(s, pat, "", 1)` on character lists: drop the first
occurrence of `pat`. -/
def replaceFirstDrop (pat : List Char) : List Char → List Char
  | [] => []
  | c :: rest =>
    if pat.isPrefixOf (c :: rest) then (c :: rest).drop pat.length
    else c :: replaceFirstDrop pat rest

/-- Go `strings.Replace(s, pat, "", 1)` (an empty pattern leaves `s` alone,
since the replacement inserted is itself empty). -/
def replaceFirst (s pat : String) : String :=
  if pat = "" then s else ⟨replaceFirstDrop pat.data s.data⟩

/-- Go `strings.Split(s, " ")[0]`: the prefix before the first space. -/
def firstSpaceField (s : String) : String :=
  ⟨s.data.takeWhile (fun c => c ≠ ' ')⟩

/-- The injected darwin `diskutilCmd`, split by subcommand: `list` and `info`
return decoded plist payloads, the mutating subcommands report success. -/
structure DarwinBackend where
  list : String → Except CmdErr plistDiskUtilList
  info : String → Except CmdErr plistDeviceInfo
  eraseDisk : String → Bool
  partitionDisk : String → String → Bool
  eraseVolume : String → Bool
  unmountDisk : String → Bool
  eject : String → Bool
  mount : String → Bool
  reformat : String → Bool

/-- The `Partition` value built for one plist partition in darwin
`DetectPartitions`. -/
def mkDarwinPartition (part : plistPartition) : Partition :=
  { disk := "", id := part.deviceIdentifier, path := "/dev/" ++ part.deviceIdentifier,
    mount := part.mountPoint, label := part.volumeName,
    fileSystem := (fileSystems part.content).getD UnknownFS, size := part.size }

/-- darwin `DetectPartitions`: run `diskutil list` for the device and read
`AllDisksAndPartitions[0]` — Go indexes without a length check, so an empty
`AllDisksAndPartitions` is a runtime panic.  A disk with no partitions is a
no-op success. -/
def Device.detectPartitionsDarwin (device : Device) (be : DarwinBackend) (_mount : Bool) :
    Out Device :=
  if device.id = "" then .err .errInput device
  else
    match be.list device.id with
    | .error .cmdFailed => .err .errDiskutil device
    | .error .unmarshalFailed => .err .errUnmarshal device
    | .ok pDisk =>
      match pDisk.allDisksAndPartitions with
      | [] => .panics
      | d0 :: _ =>
        if d0.partitions.length < 1 then .ok device
        else .ok { device with partitions := d0.partitions.map mkDarwinPartition }

/-- darwin `New`: `diskutil info` for the id, reject the zero value, build the
device (manufacturer is the first space-separated word of the IORegistry name
with the model name removed), then eagerly detect partitions. -/
def NewDarwin (be : DarwinBackend) (deviceID : String) : Res Device :=
  if deviceID = "" then .err .errInput
  else
    match be.info deviceID with
    | .error .cmdFailed => .err .errDiskutil
    | .error .unmarshalFailed => .err .errUnmarshal
    | .ok pDevice =>
      if pDevice = plistDeviceInfo.zero then .err .errDetectDisk
      else
        let device : Device :=
          { id := pDevice.deviceIdentifier, path := pDevice.path,
            removable := pDevice.removable, size := pDevice.size,
            make := firstSpaceField (replaceFirst pDevice.fullName pDevice.modelName),
            model := pDevice.modelName.trim,
            partStyle := (partStyles pDevice.partitionStyle).getD UnknownStyle,
            partitions := [] }
        match device.detectPartitionsDarwin be false with
        | .err _ _ => .err .errDetectDisk
        | .panics => .panics
        | .ok d => .ok d

/-- The id loop of darwin `Search`: skip partition identifiers, `New` each disk
id (any failure aborts with `errDetectDisk`), then apply the filters. -/
def searchDarwinLoop (be : DarwinBackend) (minSize maxSize : Nat) (removableOnly : Bool) :
    List String → Res (List Device)
  | [] => .ok []
  | id :: rest =>
    if regExPartitionMatch id then searchDarwinLoop be minSize maxSize removableOnly rest
    else
      match NewDarwin be id with
      | .err _ => .err .errDetectDisk
      | .panics => .panics
      | .ok device =>
        if removableOnly && !device.removable then
          searchDarwinLoop be minSize maxSize removableOnly rest
        else if device.size < minSize then
          searchDarwinLoop be minSize maxSize removableOnly rest
        else if device.size > maxSize && maxSize ≠ 0 then
          searchDarwinLoop be minSize maxSize removableOnly rest
        else
          match searchDarwinLoop be minSize maxSize removableOnly rest with
          | .err e => .err e
          | .panics => .panics
          | .ok found => .ok (device :: found)

/-- darwin `Search`: `diskutil list`, fail with `errEmpty` when no disks at
all were reported, then process `AllDisks`. -/
def SearchDarwin (be : DarwinBackend) (deviceID : String) (minSize maxSize : Nat)
    (removableOnly : Bool) : Res (List Device) :=
  match be.list deviceID with
  | .error .cmdFailed => .err .errDiskutil
  | .error .unmarshalFailed => .err .errUnmarshal
  | .ok pDevice =>
    if pDevice.allDisksAndPartitions.length < 1 then .err .errEmpty
    else searchDarwinLoop be minSize maxSize removableOnly pDevice.allDisks

/-- darwin `Wipe`: `diskutil erasedisk ... GPT`, then record GPT style and an
empty partition list. -/
def Device.wipeDarwin (device : Device) (be : DarwinBackend) : Out Device :=
  if device.id = "" then .err .errInput device
  else if !(be.eraseDisk device.id) then .err .errDiskutil device
  else .ok { device with partStyle := GptStyle, partitions := [] }

/-- darwin `Partition`: no emptiness check on the in-memory partition table;
`diskutil partitionDisk` (an empty label becomes `%noformat%`, otherwise the
label is uppercased), erase the EFI partition, record GPT style, and redetect
the partitions. -/
def Device.partitionDarwin (device : Device) (be : DarwinBackend) (label : String) :
    Out Device :=
  if device.id = "" then .err .errInput device
  else
    let lblParam := if label = "" then "%noformat%" else label.toUpper
    if !(be.partitionDisk device.id lblParam) then .err .errDiskutil device
    else if !(be.eraseVolume (device.id ++ "s1")) then .err .errRemoval device
    else
      let device := { device with partStyle := GptStyle }
      match device.detectPartitionsDarwin be false with
      | .err _ d => .err .errPartition d
      | .panics => .panics
      | .ok d => .ok d

/-- darwin `Dismount`: `diskutil unmountDisk force`, then clear the mount
location from every partition. -/
def Device.dismountDarwin (device : Device) (be : DarwinBackend) : Out Device :=
  if device.id = "" then .err .errInput device
  else if !(be.unmountDisk device.id) then .err .errDiskutil device
  else .ok { device with
             partitions := device.partitions.map (fun p => { p with mount := "" }) }

/-- darwin `Eject`: `diskutil eject`, then clear every field of the device
(`*device = Device{}`). -/
def Device.ejectDarwin (device : Device) (be : DarwinBackend) : Out Device :=
  if device.id = "" then .err .errInput device
  else if !(be.eject device.id) then .err .errDiskutil device
  else .ok Device.zero

/-- darwin `Mount` (a `Partition` method): requires a non-empty id and label,
then `diskutil mount`; the mount point is never updated. -/
def Partition.mountDarwin (part : Partition) (be : DarwinBackend) (_base : String) :
    Out Partition :=
  if part.id = "" then .err .errInput part
  else if part.label = "" then .err .errPartition part
  else if !(be.mount part.id) then .err .errDiskutil part
  else .ok part

/-- darwin `Format` (a `Partition` method): `diskutil reformat`. -/
def Partition.formatDarwin (part : Partition) (be : DarwinBackend) (_label : String) :
    Out Partition :=
  if part.id = "" then .err .errFormat part
  else if !(be.reformat part.id) then .err .errDiskutil part
  else .ok part

/-! ## Windows backend (storage_windows.go) -/

/-- `maxWinFAT32Size`: Windows will not format FAT32 partitions larger than
this. -/
def maxWinFAT32Size : Nat := 30648342272

/-- `maxPartSize = maxWinFAT32Size`. -/
def maxPartSize : Nat := maxWinFAT32Size

/-- `partAlignment`: 4MiB partition alignment. -/
def partAlignment : Nat := 4194304

/-- A disk as returned by the glazier management API (`glstor.Disk`), reduced
to the fields storage_windows.go reads. -/
structure WinDisk where
  number : Nat
  busType : Nat
  size : Nat
  manufacturer : String
  model : String
  partitionStyle : PartitionStyle
deriving DecidableEq

/-- A partition as returned by the glazier management API
(`glstor.Partition`), reduced to the fields storage_windows.go reads. -/
structure WinPartition where
  diskNumber : Nat
  partitionNumber : Nat
  accessPaths : List String
  driveLetter : String
  size : Nat
deriving DecidableEq

/-- Outcome of a PowerShell block run through `powershellCmd`: the process can
fail, or exit cleanly with output matching the cmdlet error regex, or
succeed. -/
inductive PSOut where
  | cmdErr
  | matchedErr
  | okOut
deriving DecidableEq

/-- Outcome of the `Get-Volume ... | ConvertTo-Json` block of `addLabel`. -/
inductive GetVolOut where
  | cmdErr
  | matchedErr
  | emptyOut
  | unmarshalErr
  | okLabel : String → GetVolOut
deriving DecidableEq

/-- The injected windows backend calls: `fnConnect`, the raw glazier service
queries, the fake-able drive-letter pool, the PowerShell blocks, and the
glazier disk mutations (`fnWipe`, `fnInitialize`, `fnPartition`). -/
structure WinBackend where
  connect : Bool
  getDisks : String → Except Unit (List WinDisk)
  getPartitions : String → Except Unit (List WinPartition)
  getVolumes : String → Except Unit (List FileSystem)
  availableDrives : List String
  setPartition : String → String → String → PSOut
  getVolume : String → GetVolOut
  removeAccessPath : String → String → String → PSOut
  fnWipe : Bool
  fnInitialize : Bool
  fnPartition : Nat → Bool → Bool

/-- `windowsGetDisks`: forward the query; a backend error is returned verbatim
(no sentinel) and an empty disk set is `errDetectDisk`. -/
def windowsGetDisks (be : WinBackend) (query : String) : Except StorageErr (List WinDisk) :=
  match be.getDisks query with
  | .error _ => .error .errOther
  | .ok ds => if ds.length < 1 then .error .errDetectDisk else .ok ds

/-- Go `strings.ReplaceAll(path, backslash, two backslashes)` used to escape
volume paths for the WMI query. -/
def escapeBackslashes (s : String) : String :=
  ⟨s.data.foldr (fun c acc => if c = '\\' then '\\' :: '\\' :: acc else c :: acc) []⟩

/-- `windowsGetVolumes`: query volumes by escaped path; a backend error is
forwarded, an empty volume set is `errDetectVol`.  Each volume is reduced to
its `FileSystem` string, the only field the callers read. -/
def windowsGetVolumes (be : WinBackend) (path : String) : Except StorageErr (List FileSystem) :=
  match be.getVolumes ("WHERE Path='" ++ escapeBackslashes path ++ "'") with
  | .error _ => .error .errOther
  | .ok vols => if vols.length < 1 then .error .errDetectVol else .ok vols

/-- `freeDrive`: first free drive letter, or the requested one if free
(`errDriveLetter` when the request is taken, `errOSResource` when the pool is
empty). -/
def freeDrive (available : List String) (requested : String) : Except StorageErr String :=
  match available with
  | [] => .error .errOSResource
  | a :: _ =>
    if requested ≠ "" then
      match available.find? (fun l => l == requested) with
      | some l => .ok l
      | none => .error .errDriveLetter
    else .ok a

/-- windows `Mount` (a `Partition` method): no-op success when a drive letter
is already assigned or the filesystem is unreadable; otherwise pick a free
letter (a `freeDrive` failure is wrapped as `errInput`) and assign it with
`Set-Partition`. -/
def Partition.mountWindows (part : Partition) (be : WinBackend) (letter : String) :
    Out Partition :=
  if part.mount ≠ "" then .ok part
  else if part.fileSystem = UnknownFS then .ok part
  else
    match freeDrive be.availableDrives letter with
    | .error _ => .err .errInput part
    | .ok available =>
      match be.setPartition part.disk part.id available with
      | .cmdErr => .err .errPowershell part
      | .matchedErr => .err .errDriveLetter part
      | .okOut => .ok { part with mount := available }

/-- windows `addLabel`: silently return for unmounted partitions, otherwise
read the volume label over PowerShell. -/
def Partition.addLabel (part : Partition) (be : WinBackend) : Out Partition :=
  if part.mount = "" then .ok part
  else
    match be.getVolume part.mount with
    | .cmdErr => .err .errPowershell part
    | .matchedErr => .err .errDetectVol part
    | .emptyOut => .err .errNoOutput part
    | .unmarshalErr => .err .errUnmarshal part
    | .okLabel label => .ok { part with label := label }

/-- The last access path with a `\\` prefix (the loop in windows
`DetectPartitions` keeps overwriting `path`). -/
def lastBackslashPath (paths : List String) : String :=
  paths.foldl (fun path p => if p.startsWith "\\\\" then p else path) ""

/-- The partition loop of windows `DetectPartitions`: skip partitions with no
access path; fetch the volume for the path (failure aborts the whole
detection); when this is the only partition and letters are requested,
best-effort mount it; best-effort read its label; keep the result. -/
def detectPartsWinLoop (be : WinBackend) (assignLetter : Bool) (nParts : Nat) :
    List WinPartition → Out (List Partition)
  | [] => .ok []
  | part :: rest =>
    if part.accessPaths.length < 1 then detectPartsWinLoop be assignLetter nParts rest
    else
      let path := lastBackslashPath part.accessPaths
      match windowsGetVolumes be path with
      | .error e => .err e []
      | .ok vols =>
        match vols with
        | [] => .panics
        | v0 :: _ =>
          let p : Partition :=
            { disk := toString part.diskNumber, id := toString part.partitionNumber,
              path := path, mount := part.driveLetter, label := "",
              fileSystem := (fileSystems v0).getD UnknownFS, size := part.size }
          let p := if nParts = 1 && assignLetter then
                     match p.mountWindows be "" with
                     | .ok p2 => p2
                     | .err _ p2 => p2
                     | .panics => p
                   else p
          let p := match p.addLabel be with
                   | .ok p2 => p2
                   | .err _ p2 => p2
                   | .panics => p
          match detectPartsWinLoop be assignLetter nParts rest with
          | .err e s => .err e s
          | .panics => .panics
          | .ok ps => .ok (p :: ps)

/-- windows `DetectPartitions`: query the partitions for this disk number and
normalize them; `device.partitions` is only written on full success. -/
def Device.detectPartitionsWindows (device : Device) (be : WinBackend) (assignLetter : Bool) :
    Out Device :=
  if device.id = "" then .err .errInput device
  else if !be.connect then .err .errOther device
  else
    match be.getPartitions ("WHERE DiskNumber=" ++ device.id) with
    | .error _ => .err .errOther device
    | .ok parts =>
      match detectPartsWinLoop be assignLetter parts.length parts with
      | .err e _ => .err e device
      | .panics => .panics
      | .ok ps => .ok { device with partitions := ps }

/-- The `Device` value built for one disk in windows `Search` (bus type 7 is
removable/USB). -/
def mkWinDevice (d : WinDisk) : Device :=
  { id := toString d.number, path := "", removable := d.busType == 7, size := d.size,
    make := d.manufacturer.trim, model := d.model.trim,
    partStyle := d.partitionStyle, partitions := [] }

/-- The disk loop of windows `Search`: filters are applied before partition
detection; a detection failure aborts the whole search (with a non-sentinel
error). -/
def searchWindowsLoop (be : WinBackend) (minSize maxSize : Nat) (removableOnly : Bool) :
    List WinDisk → Res (List Device)
  | [] => .ok []
  | d :: rest =>
    let device := mkWinDevice d
    if removableOnly && !device.removable then
      searchWindowsLoop be minSize maxSize removableOnly rest
    else if device.size < minSize then
      searchWindowsLoop be minSize maxSize removableOnly rest
    else if device.size > maxSize && maxSize ≠ 0 then
      searchWindowsLoop be minSize maxSize removableOnly rest
    else
      match device.detectPartitionsWindows be true with
      | .err _ _ => .err .errOther
      | .panics => .panics
      | .ok device2 =>
        match searchWindowsLoop be minSize maxSize removableOnly rest with
        | .err e => .err e
        | .panics => .panics
        | .ok found => .ok (device2 :: found)

/-- windows `Search`. -/
def SearchWindows (be : WinBackend) (deviceID : String) (minSize maxSize : Nat)
    (removableOnly : Bool) : Res (List Device) :=
  if !be.connect then .err .errOther
  else
    let query := if deviceID ≠ "" then "WHERE Number=" ++ deviceID else ""
    match windowsGetDisks be query with
    | .error e => .err e
    | .ok disks => searchWindowsLoop be minSize maxSize removableOnly disks

/-- windows `New`: like linux `New`, `devices[0]` is returned with no check
that the result slice is non-empty. -/
def NewWindows (be : WinBackend) (deviceID : String) : Res Device :=
  if deviceID = "" then .err .errInput
  else
    match SearchWindows be deviceID 0 0 false with
    | .err _ => .err .errDisk
    | .panics => .panics
    | .ok devices =>
      if devices.length > 1 then .err .errNoMatch
      else
        match devices with
        | [] => .panics
        | d :: _ => .ok d

/-- windows `Wipe`: `Clear` the disk, `ConvertStyle` to GPT, then record the
cleared partitions and the GPT style. -/
def Device.wipeWindows (device : Device) (be : WinBackend) : Out Device :=
  if device.id = "" then .err .errInput device
  else if !be.connect then .err .errOther device
  else
    match windowsGetDisks be ("WHERE Number=" ++ device.id) with
    | .error e => .err e device
    | .ok _ =>
      if !be.fnWipe then .err .errOther device
      else if !be.fnInitialize then .err .errOther device
      else .ok { device with partitions := [], partStyle := GptStyle }

/-- The size/useMaximumSize pair `PartitionWithOptions` passes to
`CreatePartition`: a positive size below the device size is used as-is, any
other request falls back to the maximum available space. -/
def winPartitionRequest (deviceSize size : Nat) : Nat × Bool :=
  if size > 0 then
    if size < deviceSize then (size, false) else (0, true)
  else (size, true)

/-- windows `PartitionWithOptions`: refuse when the in-memory partition table
is non-empty, create the single partition, record GPT style, and redetect. -/
def Device.partitionWithOptionsWindows (device : Device) (be : WinBackend)
    (_label : String) (size : Nat) : Out Device :=
  if device.id = "" then .err .errInput device
  else if device.partitions.length ≠ 0 then .err .errDisk device
  else
    let req := winPartitionRequest device.size size
    if !be.connect then .err .errOther device
    else
      match windowsGetDisks be ("WHERE Number=" ++ device.id) with
      | .error e => .err e device
      | .ok _ =>
        if !(be.fnPartition req.1 req.2) then .err .errPartition device
        else
          let device := { device with partStyle := GptStyle }
          match device.detectPartitionsWindows be false with
          | .err _ d => .err .errDisk d
          | .panics => .panics
          | .ok d => .ok d

/-- The size argument windows `Partition` passes to `PartitionWithOptions`:
the device size, capped at `maxPartSize`. -/
def winPartitionSizeArg (deviceSize : Nat) : Nat :=
  if deviceSize ≥ maxPartSize then maxPartSize else deviceSize

/-- windows `Partition`: a single basic-data partition of the capped size. -/
def Device.partitionWindows (device : Device) (be : WinBackend) (label : String) :
    Out Device :=
  device.partitionWithOptionsWindows be label (winPartitionSizeArg device.size)

/-- The partition loop of windows `Dismount`: `Remove-PartitionAccessPath` for
every partition with a drive letter.  Go iterates over value copies, so the
cleared `part.mount` is never written back to `device.partitions`. -/
def dismountWindowsLoop (be : WinBackend) (deviceID : String) :
    List Partition → Option StorageErr
  | [] => none
  | part :: rest =>
    if part.mount = "" then dismountWindowsLoop be deviceID rest
    else
      match be.removeAccessPath deviceID part.id part.mount with
      | .cmdErr => some .errPowershell
      | .matchedErr => some .errDisk
      | .okOut => dismountWindowsLoop be deviceID rest

/-- windows `Dismount`: a device with no partitions is a no-op success; the
stored partitions are returned unchanged either way. -/
def Device.dismountWindows (device : Device) (be : WinBackend) : Out Device :=
  if device.partitions.length < 1 then .ok device
  else
    match dismountWindowsLoop be device.id device.partitions with
    | some e => .err e device
    | none => .ok device

/-- windows `Eject`: does nothing and always succeeds. -/
def Device.ejectWindows (device : Device) : Out Device :=
  .ok device

/-! ## Helper lemmas: input-validation guards -/

theorem detectPartitionsDarwin_empty_id (device : Device) (be : DarwinBackend) (m : Bool)
    (h : device.id = "") : device.detectPartitionsDarwin be m = .err .errInput device := by
  simp [Device.detectPartitionsDarwin, h]

theorem wipeDarwin_empty_id (device : Device) (be : DarwinBackend)
    (h : device.id = "") : device.wipeDarwin be = .err .errInput device := by
  simp [Device.wipeDarwin, h]

theorem partitionDarwin_empty_id (device : Device) (be : DarwinBackend) (label : String)
    (h : device.id = "") : device.partitionDarwin be label = .err .errInput device := by
  simp [Device.partitionDarwin, h]

theorem dismountDarwin_empty_id (device : Device) (be : DarwinBackend)
    (h : device.id = "") : device.dismountDarwin be = .err .errInput device := by
  simp [Device.dismountDarwin, h]

theorem ejectDarwin_empty_id (device : Device) (be : DarwinBackend)
    (h : device.id = "") : device.ejectDarwin be = .err .errInput device := by
  simp [Device.ejectDarwin, h]

theorem detectPartitionsLinux_empty_id (device : Device) (be : LinuxBackend) (m : Bool)
    (h : device.id = "") : device.detectPartitionsLinux be m = .err .errInput device := by
  simp [Device.detectPartitionsLinux, h]

theorem wipeLinux_empty_path (device : Device) (be : LinuxBackend)
    (h : device.path = "") : device.wipeLinux be = .err .errInput device := by
  simp [Device.wipeLinux, h]

theorem partitionLinux_empty_path (device : Device) (be : LinuxBackend) (label : String)
    (h : device.path = "") : device.partitionLinux be label = .err .errInput device := by
  simp [Device.partitionLinux, h]

theorem ejectLinux_empty_path (device : Device) (be : LinuxBackend)
    (h : device.path = "") : device.ejectLinux be = .err .errInput device := by
  simp [Device.ejectLinux, h]

theorem dismountLinux_no_partitions (device : Device) (be : LinuxBackend)
    (h : device.partitions = []) : device.dismountLinux be = .ok device := by
  simp [Device.dismountLinux, h]

theorem detectPartitionsWindows_empty_id (device : Device) (be : WinBackend) (a : Bool)
    (h : device.id = "") : device.detectPartitionsWindows be a = .err .errInput device := by
  simp [Device.detectPartitionsWindows, h]

theorem wipeWindows_empty_id (device : Device) (be : WinBackend)
    (h : device.id = "") : device.wipeWindows be = .err .errInput device := by
  simp [Device.wipeWindows, h]

theorem partitionWithOptionsWindows_empty_id (device : Device) (be : WinBackend)
    (label : String) (size : Nat) (h : device.id = "") :
    device.partitionWithOptionsWindows be label size = .err .errInput device := by
  simp [Device.partitionWithOptionsWindows, h]

theorem dismountWindows_no_partitions (device : Device) (be : WinBackend)
    (h : device.partitions = []) : device.dismountWindows be = .ok device := by
  simp [Device.dismountWindows, h]

/-! ## C1: `New` on a zero-result `Search` -/

/-- A linux backend whose bulk `lsblk` succeeds but reports no block devices
at all; every other call trivially succeeds. -/
def emptyLsblkBackend : LinuxBackend :=
  { lsblkDisk := fun _ => .ok [], lsblkPart := fun _ => .ok [],
    sudoCmd := fun _ => true, tempDir := fun _ _ => none, removeAll := fun _ => true,
    dbusSystemBus := true, dbusGetDriveProp := fun _ => none,
    dbusPowerOff := fun _ => true }

/-- C1 (code bug): on linux, when `Search` succeeds with zero matching devices
(`lsblk` exits cleanly with an empty `blockdevices` list), `New` does not
return a `DetectDiskError`: it indexes `devices[0]` on the empty result slice
and panics. -/
theorem C1_new_zero_results_panics :
    SearchLinux emptyLsblkBackend "sdb" 0 0 false = .ok [] ∧
      NewLinux emptyLsblkBackend "sdb" = .panics := by
  constructor <;> rfl

/-! ## C8: empty-input guards on mutating methods -/

/-- C8 counterexample: windows `Eject` on the zero `Device` (whose id is
empty) succeeds instead of returning `InputError`. -/
theorem C8_counterexample_windows_eject_ok :
    Device.zero.id = "" ∧ Device.ejectWindows Device.zero = .ok Device.zero :=
  ⟨rfl, rfl⟩

/-- C8 (amended): the mutating methods that begin with a validation guard do
return `InputError` without touching the backend — on darwin all five device
methods guard on an empty id; on linux `DetectPartitions` guards on the id
while `Wipe`, `Partition` and `Eject` guard on the path; on windows
`DetectPartitions`, `Wipe` and `PartitionWithOptions` guard on the id.  But
`Dismount` on linux and windows returns success for a device with no
partitions, and windows `Eject` always returns success. -/
theorem C8_empty_input_guards :
    (∀ (device : Device) (dbe : DarwinBackend) (lbe : LinuxBackend) (wbe : WinBackend)
        (m : Bool) (label : String) (size : Nat),
      device.id = "" → device.path = "" →
        device.detectPartitionsDarwin dbe m = .err .errInput device ∧
        device.wipeDarwin dbe = .err .errInput device ∧
        device.partitionDarwin dbe label = .err .errInput device ∧
        device.dismountDarwin dbe = .err .errInput device ∧
        device.ejectDarwin dbe = .err .errInput device ∧
        device.detectPartitionsLinux lbe m = .err .errInput device ∧
        device.wipeLinux lbe = .err .errInput device ∧
        device.partitionLinux lbe label = .err .errInput device ∧
        device.ejectLinux lbe = .err .errInput device ∧
        device.detectPartitionsWindows wbe m = .err .errInput device ∧
        device.wipeWindows wbe = .err .errInput device ∧
        device.partitionWithOptionsWindows wbe label size = .err .errInput device) ∧
    (∀ (device : Device) (lbe : LinuxBackend) (wbe : WinBackend),
      device.partitions = [] →
        device.dismountLinux lbe = .ok device ∧
        device.dismountWindows wbe = .ok device) ∧
    (∀ device : Device, device.ejectWindows = .ok device) := by
  refine ⟨fun device dbe lbe wbe m label size hid hpath => ?_,
    fun device lbe wbe hparts => ?_, fun device => rfl⟩
  · exact ⟨detectPartitionsDarwin_empty_id device dbe m hid,
      wipeDarwin_empty_id device dbe hid,
      partitionDarwin_empty_id device dbe label hid,
      dismountDarwin_empty_id device dbe hid,
      ejectDarwin_empty_id device dbe hid,
      detectPartitionsLinux_empty_id device lbe m hid,
      wipeLinux_empty_path device lbe hpath,
      partitionLinux_empty_path device lbe label hpath,
      ejectLinux_empty_path device lbe hpath,
      detectPartitionsWindows_empty_id device wbe m hid,
      wipeWindows_empty_id device wbe hid,
      partitionWithOptionsWindows_empty_id device wbe label size hid⟩
  · exact ⟨dismountLinux_no_partitions device lbe hparts,
      dismountWindows_no_partitions device wbe hparts⟩

/-- A darwin backend where every call succeeds trivially (used to witness
that the guards fire before any backend call is consulted). -/
def trivialDarwinBackend : DarwinBackend :=
  { list := fun _ => .ok { allDisks := [], allDisksAndPartitions := [] },
    info := fun _ => .ok plistDeviceInfo.zero,
    eraseDisk := fun _ => true, partitionDisk := fun _ _ => true,
    eraseVolume := fun _ => true, unmountDisk := fun _ => true,
    eject := fun _ => true, mount := fun _ => true, reformat := fun _ => true }

/-- A windows backend where every call succeeds trivially. -/
def trivialWinBackend : WinBackend :=
  { connect := true, getDisks := fun _ => .ok [], getPartitions := fun _ => .ok [],
    getVolumes := fun _ => .ok [], availableDrives := [],
    setPartition := fun _ _ _ => .okOut, getVolume := fun _ => .okLabel "",
    removeAccessPath := fun _ _ _ => .okOut, fnWipe := true, fnInitialize := true,
    fnPartition := fun _ _ => true }

theorem C8_empty_input_guards_witness :
    Device.zero.id = "" ∧
      Device.zero.wipeDarwin trivialDarwinBackend = .err .errInput Device.zero ∧
      Device.zero.wipeLinux emptyLsblkBackend = .err .errInput Device.zero ∧
      Device.zero.dismountWindows trivialWinBackend = .ok Device.zero :=
  ⟨rfl,
    ((C8_empty_input_guards.1 Device.zero trivialDarwinBackend emptyLsblkBackend
      trivialWinBackend false "" 0 rfl rfl).2).1,
    (((((((C8_empty_input_guards.1 Device.zero trivialDarwinBackend emptyLsblkBackend
      trivialWinBackend false "" 0 rfl rfl).2).2).2).2).2).2).1,
    (C8_empty_input_guards.2.1 Device.zero emptyLsblkBackend trivialWinBackend rfl).2⟩

/-! ## C4: `Eject` semantics -/

/-- A valid removable windows device used to exercise `Eject`. -/
def winDeviceOne : Device :=
  { id := "1", path := "", removable := true, size := 8589934592, make := "SanDisk",
    model := "Ultra", partStyle := GptStyle, partitions := [] }

/-- C4 counterexample: windows `Eject` succeeds but leaves the `Device` value
completely unchanged (its id stays non-empty), so subsequent calls do not see
an empty id. -/
theorem C4_counterexample_windows_eject_not_zeroed :
    Device.ejectWindows winDeviceOne = .ok winDeviceOne ∧
      winDeviceOne ≠ Device.zero ∧ winDeviceOne.id ≠ "" := by
  refine ⟨rfl, ?_, ?_⟩ <;> decide

/-- C4 (amended): only darwin zeroes the device on a successful `Eject` (after
which every darwin device method on the zeroed value returns `InputError`);
linux leaves the device unchanged on success, and windows `Eject` is a no-op
that always succeeds with the device unchanged. -/
theorem C4_eject_semantics :
    (∀ (be : DarwinBackend) (device d' : Device),
        device.ejectDarwin be = .ok d' → d' = Device.zero) ∧
    (∀ (be : DarwinBackend) (m : Bool) (label : String),
        Device.zero.detectPartitionsDarwin be m = .err .errInput Device.zero ∧
        Device.zero.wipeDarwin be = .err .errInput Device.zero ∧
        Device.zero.partitionDarwin be label = .err .errInput Device.zero ∧
        Device.zero.dismountDarwin be = .err .errInput Device.zero ∧
        Device.zero.ejectDarwin be = .err .errInput Device.zero) ∧
    (∀ (be : LinuxBackend) (device d' : Device),
        device.ejectLinux be = .ok d' → d' = device) ∧
    (∀ device : Device, device.ejectWindows = .ok device) := by
  refine ⟨?_, ?_, ?_, fun _ => rfl⟩
  · intro be device d' h
    unfold Device.ejectDarwin at h
    split at h
    · exact Out.noConfusion h
    · split at h
      · exact Out.noConfusion h
      · cases h; rfl
  · intro be m label
    exact ⟨detectPartitionsDarwin_empty_id _ _ _ rfl, wipeDarwin_empty_id _ _ rfl,
      partitionDarwin_empty_id _ _ _ rfl, dismountDarwin_empty_id _ _ rfl,
      ejectDarwin_empty_id _ _ rfl⟩
  · intro be device d' h
    unfold Device.ejectLinux at h
    split at h
    · exact Out.noConfusion h
    · split at h
      · exact Out.noConfusion h
      · split at h
        · exact Out.noConfusion h
        · split at h
          · exact Out.noConfusion h
          · cases h; rfl

/-- A darwin device eligible for ejection. -/
def darwinDiskTwo : Device :=
  { id := "disk2", path := "/dev/disk2", removable := true, size := 8589934592,
    make := "", model := "", partStyle := GptStyle, partitions := [] }

theorem C4_eject_semantics_witness :
    darwinDiskTwo.ejectDarwin trivialDarwinBackend = .ok Device.zero ∧
      Device.zero = Device.zero ∧
      darwinDiskTwo.ejectLinux emptyLsblkBackend = .err .errOther darwinDiskTwo :=
  ⟨rfl, C4_eject_semantics.1 trivialDarwinBackend darwinDiskTwo Device.zero rfl, rfl⟩

/-! ## C2: `Partition` on a non-empty partition table -/

/-- An existing FAT32 partition recorded on the darwin test device. -/
def darwinOldPart : Partition :=
  { disk := "", id := "disk2s1", path := "/dev/disk2s1", mount := "",
    label := "OLD", fileSystem := FAT32, size := 1000000 }

/-- A darwin device whose in-memory partition list is non-empty. -/
def darwinPartitionedDevice : Device :=
  { id := "disk2", path := "/dev/disk2", removable := true, size := 8589934592,
    make := "", model := "", partStyle := GptStyle, partitions := [darwinOldPart] }

/-- The partition reported by `diskutil list` after repartitioning. -/
def darwinNewPlistPart : plistPartition :=
  { content := "Windows_FAT_32", deviceIdentifier := "disk2s2",
    mountPoint := "/Volumes/NEW", size := 8589934592, volumeName := "NEW" }

/-- A darwin backend whose mutating calls succeed and whose `diskutil list`
reports the freshly created partition. -/
def darwinRepartitionBackend : DarwinBackend :=
  { list := fun _ => .ok
      { allDisks := ["disk2"],
        allDisksAndPartitions :=
          [{ content := "GUID_partition_scheme", deviceIdentifier := "disk2",
             partitions := [darwinNewPlistPart], size := 8589934592 }] },
    info := fun _ => .ok plistDeviceInfo.zero,
    eraseDisk := fun _ => true, partitionDisk := fun _ _ => true,
    eraseVolume := fun _ => true, unmountDisk := fun _ => true,
    eject := fun _ => true, mount := fun _ => true, reformat := fun _ => true }

/-- C2 counterexample: the darwin backend never checks the in-memory partition
table — `Partition` on a device with one recorded partition succeeds and
replaces the partition list instead of failing with `DeviceError`. -/
theorem C2_counterexample_darwin_partition_succeeds :
    darwinPartitionedDevice.partitions ≠ [] ∧
      darwinPartitionedDevice.partitionDarwin darwinRepartitionBackend "data" =
        .ok { darwinPartitionedDevice with
              partStyle := GptStyle,
              partitions := [mkDarwinPartition darwinNewPlistPart] } ∧
      [mkDarwinPartition darwinNewPlistPart] ≠ darwinPartitionedDevice.partitions := by
  refine ⟨?_, rfl, ?_⟩ <;> decide

/-- C2 (amended): on the linux and windows backends, `Partition` (given a
receiver that passes the initial input guard) refuses a device whose
partition list is non-empty with `DeviceError` and leaves the device — in
particular its partition list — unchanged; darwin performs no such check. -/
theorem C2_partition_rejects_nonempty :
    (∀ (be : LinuxBackend) (device : Device) (label : String),
        device.path ≠ "" → device.partitions ≠ [] →
        device.partitionLinux be label = .err .errDisk device) ∧
    (∀ (be : WinBackend) (device : Device) (label : String) (size : Nat),
        device.id ≠ "" → device.partitions ≠ [] →
        device.partitionWithOptionsWindows be label size = .err .errDisk device) ∧
    (∀ (be : WinBackend) (device : Device) (label : String),
        device.id ≠ "" → device.partitions ≠ [] →
        device.partitionWindows be label = .err .errDisk device) := by
  have hwin : ∀ (be : WinBackend) (device : Device) (label : String) (size : Nat),
      device.id ≠ "" → device.partitions ≠ [] →
      device.partitionWithOptionsWindows be label size = .err .errDisk device := by
    intro be device label size hid hparts
    unfold Device.partitionWithOptionsWindows
    rw [if_neg hid, if_pos (fun h0 => hparts (List.length_eq_zero.mp h0))]
  refine ⟨?_, hwin, fun be device label hid hparts => hwin be device label _ hid hparts⟩
  intro be device label hpath hparts
  unfold Device.partitionLinux
  rw [if_neg hpath, if_pos (fun h0 => hparts (List.length_eq_zero.mp h0))]

/-- A linux device whose in-memory partition list is non-empty. -/
def linuxPartitionedDevice : Device :=
  { id := "sdb", path := "/dev/sdb", removable := true, size := 8589934592,
    make := "", model := "", partStyle := GptStyle,
    partitions := [{ disk := "", id := "sdb1", path := "/dev/sdb1", mount := "",
                     label := "OLD", fileSystem := FAT32, size := 1000000 }] }

theorem C2_partition_rejects_nonempty_witness :
    linuxPartitionedDevice.path ≠ "" ∧ linuxPartitionedDevice.partitions ≠ [] ∧
      linuxPartitionedDevice.partitionLinux emptyLsblkBackend "DATA" =
        .err .errDisk linuxPartitionedDevice :=
  ⟨by decide, by decide,
    C2_partition_rejects_nonempty.1 emptyLsblkBackend linuxPartitionedDevice "DATA"
      (by decide) (by decide)⟩

/-! ## C3: state after a successful `Wipe` -/

/-- An MBR-style linux device about to be wiped. -/
def linuxMbrDevice : Device :=
  { id := "sdb", path := "/dev/sdb", removable := true, size := 8589934592,
    make := "", model := "", partStyle := MbrStyle, partitions := [] }

/-- C3 counterexample: a successful linux `Wipe` records `UnknownStyle`, not
GPT (only the partition list is cleared). -/
theorem C3_counterexample_linux_wipe_not_gpt :
    linuxMbrDevice.wipeLinux emptyLsblkBackend =
        .ok { linuxMbrDevice with partStyle := UnknownStyle, partitions := [] } ∧
      UnknownStyle ≠ GptStyle := by
  refine ⟨rfl, ?_⟩
  decide

/-- C3 (amended): after a successful `Wipe` the partition list is empty on all
three backends and the partition style is GPT on darwin and windows, but
`UnknownStyle` on linux (where `wipefs` erases the partition table outright).
-/
theorem C3_wipe_state :
    (∀ (be : DarwinBackend) (device d' : Device),
        device.wipeDarwin be = .ok d' → d'.partStyle = GptStyle ∧ d'.partitions = []) ∧
    (∀ (be : WinBackend) (device d' : Device),
        device.wipeWindows be = .ok d' → d'.partStyle = GptStyle ∧ d'.partitions = []) ∧
    (∀ (be : LinuxBackend) (device d' : Device),
        device.wipeLinux be = .ok d' → d'.partStyle = UnknownStyle ∧ d'.partitions = []) := by
  refine ⟨?_, ?_, ?_⟩
  · intro be device d' h
    unfold Device.wipeDarwin at h
    split at h
    · exact Out.noConfusion h
    · split at h
      · exact Out.noConfusion h
      · cases h; exact ⟨rfl, rfl⟩
  · intro be device d' h
    unfold Device.wipeWindows at h
    split at h
    · exact Out.noConfusion h
    · split at h
      · exact Out.noConfusion h
      · split at h
        · exact Out.noConfusion h
        · split at h
          · exact Out.noConfusion h
          · split at h
            · exact Out.noConfusion h
            · cases h; exact ⟨rfl, rfl⟩
  · intro be device d' h
    unfold Device.wipeLinux at h
    split at h
    · exact Out.noConfusion h
    · split at h
      · exact Out.noConfusion h
      · exact Out.noConfusion h
      · split at h
        · exact Out.noConfusion h
        · cases h; exact ⟨rfl, rfl⟩

/-- A windows backend with one 8GB disk and no partitions on it. -/
def winOneDiskBackend : WinBackend :=
  { connect := true,
    getDisks := fun _ => .ok
      [{ number := 1, busType := 7, size := 8589934592, manufacturer := "SanDisk",
         model := "Ultra", partitionStyle := MbrStyle }],
    getPartitions := fun _ => .ok [], getVolumes := fun _ => .ok [],
    availableDrives := ["F", "G"], setPartition := fun _ _ _ => .okOut,
    getVolume := fun _ => .okLabel "", removeAccessPath := fun _ _ _ => .okOut,
    fnWipe := true, fnInitialize := true, fnPartition := fun _ _ => true }

theorem C3_wipe_state_witness :
    winDeviceOne.wipeWindows winOneDiskBackend =
        .ok { winDeviceOne with partitions := [], partStyle := GptStyle } ∧
      GptStyle = GptStyle ∧ ([] : List Partition) = [] :=
  ⟨rfl, (C3_wipe_state.2.1 winOneDiskBackend winDeviceOne _ rfl).1,
    (C3_wipe_state.2.1 winOneDiskBackend winDeviceOne _ rfl).2⟩

/-! ## C5: FAT32 size cap in `Partition` -/

/-- An empty 64GiB linux device — larger than the FAT32 cap. -/
def linuxLargeDevice : Device :=
  { id := "sdc", path := "/dev/sdc", removable := true, size := 68719476736,
    make := "", model := "", partStyle := UnknownStyle, partitions := [] }

/-- C5 counterexample: linux `Partition` on a 64GiB device records a single
partition covering the whole device (the `parted` invocation spans 100% of the
disk), so its size exceeds the FAT32 cap `maxPartSize`. -/
theorem C5_counterexample_linux_partition_uncapped :
    linuxLargeDevice.partitionLinux emptyLsblkBackend "DATA" =
        .ok { linuxLargeDevice with
              partStyle := GptStyle,
              partitions := [{ disk := "", id := "sdc1", path := "/dev/sdc1", mount := "",
                               label := "", fileSystem := FAT32, size := 68719476736 }] } ∧
      maxPartSize < 68719476736 := by
  refine ⟨rfl, ?_⟩
  decide

/-- C5 (amended): the FAT32 cap is enforced only by the windows backend —
windows `Partition` asks `CreatePartition` for exactly `maxPartSize` bytes
(not maximum size) whenever the device is strictly larger than the cap, and
for the maximum available size otherwise; the linux backend partitions 100%
of the device and records a single partition whose size equals the full
device size, with no cap. -/
theorem C5_partition_size_cap :
    (∀ deviceSize : Nat, deviceSize > maxPartSize →
        winPartitionRequest deviceSize (winPartitionSizeArg deviceSize) =
          (maxPartSize, false)) ∧
    (∀ deviceSize : Nat, deviceSize ≤ maxPartSize →
        winPartitionRequest deviceSize (winPartitionSizeArg deviceSize) = (0, true)) ∧
    (∀ (be : LinuxBackend) (device d' : Device) (label : String),
        device.partitionLinux be label = .ok d' →
        d'.partitions = [{ disk := "", id := device.id ++ "1",
                           path := "/dev/" ++ device.id ++ "1", mount := "", label := "",
                           fileSystem := FAT32, size := device.size }]) := by
  refine ⟨?_, ?_, ?_⟩
  · intro deviceSize h
    have h1 : winPartitionSizeArg deviceSize = maxPartSize := by
      unfold winPartitionSizeArg
      rw [if_pos (le_of_lt h)]
    rw [h1]
    unfold winPartitionRequest
    rw [if_pos (by decide : maxPartSize > 0), if_pos h]
  · intro deviceSize h
    rcases Nat.lt_or_ge deviceSize maxPartSize with hlt | hge
    · have h1 : winPartitionSizeArg deviceSize = deviceSize := by
        unfold winPartitionSizeArg
        rw [if_neg (by omega)]
      rw [h1]
      unfold winPartitionRequest
      by_cases h0 : deviceSize > 0
      · rw [if_pos h0, if_neg (by omega)]
      · rw [if_neg h0]
        have hz : deviceSize = 0 := by omega
        rw [hz]
    · have h1 : winPartitionSizeArg deviceSize = maxPartSize := by
        unfold winPartitionSizeArg
        rw [if_pos hge]
      rw [h1]
      unfold winPartitionRequest
      rw [if_pos (by decide : maxPartSize > 0), if_neg (by omega)]
  · intro be device d' label h
    unfold Device.partitionLinux at h
    split at h
    · exact Out.noConfusion h
    · split at h
      · exact Out.noConfusion h
      · split at h
        · exact Out.noConfusion h
        · cases h; rfl

theorem C5_partition_size_cap_witness :
    winPartitionRequest 68719476736 (winPartitionSizeArg 68719476736) =
        (maxPartSize, false) ∧
      winPartitionRequest 8589934592 (winPartitionSizeArg 8589934592) = (0, true) ∧
      linuxLargeDevice.partitionLinux emptyLsblkBackend "DATA" =
        .ok { linuxLargeDevice with
              partStyle := GptStyle,
              partitions := [{ disk := "", id := "sdc1", path := "/dev/sdc1", mount := "",
                               label := "", fileSystem := FAT32, size := 68719476736 }] } ∧
      [{ disk := "", id := "sdc1", path := "/dev/sdc1", mount := "",
         label := "", fileSystem := FAT32, size := 68719476736 }] =
        [{ disk := "", id := linuxLargeDevice.id ++ "1",
           path := "/dev/" ++ linuxLargeDevice.id ++ "1", mount := "", label := "",
           fileSystem := FAT32, size := linuxLargeDevice.size : Partition }] :=
  ⟨C5_partition_size_cap.1 68719476736 (by decide),
    C5_partition_size_cap.2.1 8589934592 (by decide), rfl,
    C5_partition_size_cap.2.2 emptyLsblkBackend linuxLargeDevice _ "DATA" rfl⟩

/-! ## C6: `Mount` no-op conditions -/

/-- A mounted darwin partition with an empty label. -/
def darwinMountedPart : Partition :=
  { disk := "", id := "disk4s2", path := "/dev/disk4s2", mount := "/Volumes/USB",
    label := "", fileSystem := FAT32, size := 1000000 }

/-- C6 counterexample: darwin `Mount` on an already-mounted partition is not a
no-op success — it never consults the mount state, and here fails with
`errPartition` because the label is empty. -/
theorem C6_counterexample_darwin_mount_fails :
    darwinMountedPart.mount ≠ "" ∧
      darwinMountedPart.mountDarwin trivialDarwinBackend "" =
        .err .errPartition darwinMountedPart := by
  refine ⟨?_, rfl⟩
  decide

/-- C6 (amended): on the linux and windows backends, `Mount` returns success
and leaves the partition (in particular its `mount` field) unchanged whenever
the partition is already mounted or its filesystem is `Unknown`; consequently
a second call in succession returns the same unchanged result.  The darwin
backend checks neither condition: it requires a non-empty id and label and
always invokes `diskutil mount`. -/
theorem C6_mount_noop :
    (∀ (be : LinuxBackend) (part : Partition) (base : String),
        part.mount ≠ "" ∨ part.fileSystem = UnknownFS →
        part.mountLinux be base = .ok part) ∧
    (∀ (be : WinBackend) (part : Partition) (letter : String),
        part.mount ≠ "" ∨ part.fileSystem = UnknownFS →
        part.mountWindows be letter = .ok part) := by
  constructor
  · intro be part base h
    unfold Partition.mountLinux
    by_cases hm : part.mount ≠ ""
    · rw [if_pos hm]
    · rw [if_neg hm, if_pos (h.resolve_left hm)]
  · intro be part letter h
    unfold Partition.mountWindows
    by_cases hm : part.mount ≠ ""
    · rw [if_pos hm]
    · rw [if_neg hm, if_pos (h.resolve_left hm)]

/-- A mounted linux partition. -/
def linuxMountedPart : Partition :=
  { disk := "", id := "sdb1", path := "/dev/sdb1", mount := "/mnt/usb",
    label := "DATA", fileSystem := FAT32, size := 1000000 }

theorem C6_mount_noop_witness :
    (linuxMountedPart.mount ≠ "" ∨ linuxMountedPart.fileSystem = UnknownFS) ∧
      linuxMountedPart.mountLinux emptyLsblkBackend "" = .ok linuxMountedPart ∧
      linuxMountedPart.mountWindows trivialWinBackend "" = .ok linuxMountedPart :=
  ⟨Or.inl (by decide),
    C6_mount_noop.1 emptyLsblkBackend linuxMountedPart "" (Or.inl (by decide)),
    C6_mount_noop.2 trivialWinBackend linuxMountedPart "" (Or.inl (by decide))⟩

/-! ## C9: `SelectPartition` -/

theorem filter_find?_eq {α : Type} (p q : α → Bool) :
    ∀ l : List α, (l.filter p).find? q = l.find? (fun a => p a && q a)
  | [] => rfl
  | a :: l => by
    by_cases hp : p a
    · by_cases hq : q a
      · simp [List.filter_cons, hp, hq]
      · simp [List.filter_cons, hp, hq, filter_find?_eq p q l]
    · simp [List.filter_cons, hp, filter_find?_eq p q l]

theorem filter_head?_eq {α : Type} (p : α → Bool) :
    ∀ l : List α, (l.filter p).head? = l.find? p
  | [] => rfl
  | a :: l => by
    by_cases hp : p a
    · simp [List.filter_cons, hp]
    · simp [List.filter_cons, hp, filter_head?_eq p l]

/-- A 4GiB FAT32 partition (first in detection order). -/
def fat32FourGB : Partition :=
  { disk := "", id := "sda1", path := "/dev/sda1", mount := "", label := "A",
    fileSystem := FAT32, size := 4294967296 }

/-- A 10GiB NTFS partition (second in detection order). -/
def ntfsTenGB : Partition :=
  { disk := "", id := "sda2", path := "/dev/sda2", mount := "", label := "B",
    fileSystem := NTFS, size := 10737418240 }

/-- A 12GiB FAT32 partition (third in detection order). -/
def fat32TwelveGB : Partition :=
  { disk := "", id := "sda3", path := "/dev/sda3", mount := "", label := "C",
    fileSystem := FAT32, size := 12884901888 }

/-- lsblk row behind `fat32FourGB`. -/
def bdFourGB : blockDevice :=
  { name := "sda1", label := "A", fstype := "vfat", pttype := "gpt", type := "part",
    size := 4294967296, hotplug := true, mountpoint := "", vendor := "", model := "" }

/-- lsblk row behind `ntfsTenGB`. -/
def bdTenGB : blockDevice :=
  { name := "sda2", label := "B", fstype := "Windows_NTFS", pttype := "gpt", type := "part",
    size := 10737418240, hotplug := true, mountpoint := "", vendor := "", model := "" }

/-- lsblk row behind `fat32TwelveGB`. -/
def bdTwelveGB : blockDevice :=
  { name := "sda3", label := "C", fstype := "vfat", pttype := "gpt", type := "part",
    size := 12884901888, hotplug := true, mountpoint := "", vendor := "", model := "" }

/-- A linux backend reporting the three scenario partitions for any device. -/
def threePartsBackend : LinuxBackend :=
  { lsblkDisk := fun _ => .ok [], lsblkPart := fun _ => .ok [bdFourGB, bdTenGB, bdTwelveGB],
    sudoCmd := fun _ => true, tempDir := fun _ _ => none, removeAll := fun _ => true,
    dbusSystemBus := true, dbusGetDriveProp := fun _ => none,
    dbusPowerOff := fun _ => true }

/-- The linux device holding the three scenario partitions. -/
def threePartsDevice : Device :=
  { id := "sda", path := "/dev/sda", removable := true, size := 34359738368,
    make := "", model := "", partStyle := GptStyle, partitions := [] }

/-- C9: `SelectPartition` returns the first partition in detection order whose
size is at least `minSize` and whose filesystem equals `fs` (any filesystem
when `fs` is blank).  On the 4GiB-FAT32/10GiB-NTFS/12GiB-FAT32 device,
`minSize = 8GiB, fs = FAT32` selects the 12GiB FAT32 partition (also through
the device-level linux wrapper), and `minSize = 11GiB, fs = NTFS` is
`NoMatchError`. -/
theorem C9_select_partition_first_match :
    (∀ (partitions : List Partition) (minSize : Nat) (fs : FileSystem) (p : Partition),
        fs ≠ "" →
        partitions.find?
            (fun part => decide (part.size ≥ minSize) && (part.fileSystem == fs)) = some p →
        selectFromPartitions partitions minSize fs = .ok p) ∧
    (∀ (partitions : List Partition) (minSize : Nat) (p : Partition),
        partitions.find? (fun part => decide (part.size ≥ minSize)) = some p →
        selectFromPartitions partitions minSize "" = .ok p) ∧
    selectFromPartitions [fat32FourGB, ntfsTenGB, fat32TwelveGB] 8589934592 FAT32 =
      .ok fat32TwelveGB ∧
    selectFromPartitions [fat32FourGB, ntfsTenGB, fat32TwelveGB] 11811160064 NTFS =
      .error .errNoMatch ∧
    threePartsDevice.selectPartitionLinux threePartsBackend 8589934592 FAT32 =
      .ok (mkLinuxPartition bdTwelveGB) ∧
    mkLinuxPartition bdTwelveGB = fat32TwelveGB ∧
    threePartsDevice.selectPartitionLinux threePartsBackend 11811160064 NTFS =
      .err .errNoMatch := by
  refine ⟨?_, ?_, by rfl, by rfl, by rfl, by rfl, by rfl⟩
  · intro partitions minSize fs p hfs hfind
    have hne : partitions ≠ [] := by
      intro h
      rw [h] at hfind
      exact Option.noConfusion hfind
    have hfilter : (partitions.filter (fun part => decide (part.size ≥ minSize))).find?
        (fun part => part.fileSystem == fs) = some p := by
      rw [filter_find?_eq]
      exact hfind
    unfold selectFromPartitions
    rw [if_neg (by have := List.length_pos.mpr hne; omega)]
    cases hf : partitions.filter (fun part => decide (part.size ≥ minSize)) with
    | nil =>
      rw [hf] at hfilter
      exact Option.noConfusion hfilter
    | cons a arest =>
      rw [hf] at hfilter
      simp only [hfilter, if_neg hfs]
  · intro partitions minSize p hfind
    have hne : partitions ≠ [] := by
      intro h
      rw [h] at hfind
      exact Option.noConfusion hfind
    have hhead : (partitions.filter (fun part => decide (part.size ≥ minSize))).head? =
        some p := by
      rw [filter_head?_eq]
      exact hfind
    unfold selectFromPartitions
    rw [if_neg (by have := List.length_pos.mpr hne; omega)]
    cases hf : partitions.filter (fun part => decide (part.size ≥ minSize)) with
    | nil =>
      rw [hf] at hhead
      exact Option.noConfusion hhead
    | cons a arest =>
      rw [hf] at hhead
      simp only [List.head?_cons, Option.some.injEq] at hhead
      rw [hhead]
      simp

theorem C9_select_partition_first_match_witness :
    FAT32 ≠ "" ∧
      [fat32FourGB, ntfsTenGB, fat32TwelveGB].find?
          (fun part => decide (part.size ≥ 8589934592) && (part.fileSystem == FAT32)) =
        some fat32TwelveGB ∧
      selectFromPartitions [fat32FourGB, ntfsTenGB, fat32TwelveGB] 8589934592 FAT32 =
        .ok fat32TwelveGB :=
  ⟨by decide, by decide,
    C9_select_partition_first_match.1 [fat32FourGB, ntfsTenGB, fat32TwelveGB] 8589934592
      FAT32 fat32TwelveGB (by decide) (by decide)⟩

/-! ## C7: the `Search` size filters -/

/-- The combined keep-condition of the three filter branches shared by the
`Search` device loops: kept iff not excluded by `removableOnly`, not below
`minSize`, and not above a non-zero `maxSize`. -/
def searchKeep (minSize maxSize : Nat) (removableOnly : Bool) (device : Device) : Bool :=
  !(removableOnly && !device.removable) && !(decide (device.size < minSize)) &&
    !(decide (device.size > maxSize) && decide (maxSize ≠ 0))

theorem searchLinuxLoop_filter (be : LinuxBackend) (minSize maxSize : Nat)
    (removableOnly : Bool) (probeFn : blockDevice → Device) :
    ∀ bds : List blockDevice,
      (∀ bd ∈ bds, (mkLinuxDevice bd).detectPartitionsLinux be false = .ok (probeFn bd)) →
      searchLinuxLoop be minSize maxSize removableOnly bds =
        .ok ((bds.map probeFn).filter (searchKeep minSize maxSize removableOnly))
  | [], _ => rfl
  | bd :: rest, hp => by
    have hhead := hp bd (by simp)
    have ih := searchLinuxLoop_filter be minSize maxSize removableOnly probeFn rest
      (fun b hb => hp b (by simp [hb]))
    simp only [searchLinuxLoop, hhead]
    by_cases h1 : removableOnly && !(probeFn bd).removable
    · rw [if_pos h1, ih]
      have hkeep : searchKeep minSize maxSize removableOnly (probeFn bd) = false := by
        simp [searchKeep, h1]
      simp [List.filter_cons, hkeep]
    · rw [if_neg h1]
      by_cases h2 : (probeFn bd).size < minSize
      · rw [if_pos h2, ih]
        have hkeep : searchKeep minSize maxSize removableOnly (probeFn bd) = false := by
          simp [searchKeep, h2]
        simp [List.filter_cons, hkeep]
      · rw [if_neg h2]
        by_cases h3 : decide ((probeFn bd).size > maxSize) && decide (maxSize ≠ 0)
        · rw [if_pos h3, ih]
          have hkeep : searchKeep minSize maxSize removableOnly (probeFn bd) = false := by
            simp only [Bool.and_eq_true, decide_eq_true_eq] at h3
            simp [searchKeep, h3.1, h3.2]
          simp [List.filter_cons, hkeep]
        · rw [if_neg h3, ih]
          rw [Bool.not_eq_true] at h1 h3
          have hkeep : searchKeep minSize maxSize removableOnly (probeFn bd) = true := by
            simp only [Bool.and_eq_false_iff, decide_eq_false_iff_not, Nat.not_lt,
              Decidable.not_not] at h3
            simp [searchKeep, h1, h2, h3]
          simp [List.filter_cons, hkeep]

theorem searchWindowsLoop_filter (be : WinBackend) (minSize maxSize : Nat)
    (removableOnly : Bool) (probeFn : WinDisk → Device) :
    ∀ disks : List WinDisk,
      (∀ d ∈ disks, (mkWinDevice d).detectPartitionsWindows be true = .ok (probeFn d)) →
      searchWindowsLoop be minSize maxSize removableOnly disks =
        .ok ((disks.filter
          (fun d => searchKeep minSize maxSize removableOnly (mkWinDevice d))).map probeFn)
  | [], _ => rfl
  | d :: rest, hp => by
    have hhead := hp d (by simp)
    have ih := searchWindowsLoop_filter be minSize maxSize removableOnly probeFn rest
      (fun b hb => hp b (by simp [hb]))
    simp only [searchWindowsLoop, hhead]
    by_cases h1 : removableOnly && !(mkWinDevice d).removable
    · rw [if_pos h1, ih]
      have hkeep : searchKeep minSize maxSize removableOnly (mkWinDevice d) = false := by
        simp [searchKeep, h1]
      simp [List.filter_cons, hkeep]
    · rw [if_neg h1]
      by_cases h2 : (mkWinDevice d).size < minSize
      · rw [if_pos h2, ih]
        have hkeep : searchKeep minSize maxSize removableOnly (mkWinDevice d) = false := by
          simp [searchKeep, h2]
        simp [List.filter_cons, hkeep]
      · rw [if_neg h2]
        by_cases h3 : decide ((mkWinDevice d).size > maxSize) && decide (maxSize ≠ 0)
        · rw [if_pos h3, ih]
          have hkeep : searchKeep minSize maxSize removableOnly (mkWinDevice d) = false := by
            simp only [Bool.and_eq_true, decide_eq_true_eq] at h3
            simp [searchKeep, h3.1, h3.2]
          simp [List.filter_cons, hkeep]
        · rw [if_neg h3, ih]
          rw [Bool.not_eq_true] at h1 h3
          have hkeep : searchKeep minSize maxSize removableOnly (mkWinDevice d) = true := by
            simp only [Bool.and_eq_false_iff, decide_eq_false_iff_not, Nat.not_lt,
              Decidable.not_not] at h3
            simp [searchKeep, h1, h2, h3]
          simp [List.filter_cons, hkeep]

/-- C7: on linux and windows, `Search` with `maxSize = 0` never excludes a
device for being too large — only `size < minSize` excludes, so a device whose
size equals `minSize` is included; with a non-zero `maxSize` the bounds are
inclusive on both ends (`minSize ≤ size ≤ maxSize`); and with
`minSize > maxSize` (both non-zero) the result is the empty list with no
error.  `probeFn` names the per-device result of the eager partition probe,
assumed to succeed throughout. -/
theorem C7_search_size_filters :
    (∀ (be : LinuxBackend) (deviceID : String) (minSize : Nat) (removableOnly : Bool)
        (bds : List blockDevice) (probeFn : blockDevice → Device),
      be.lsblkDisk deviceID = .ok bds →
      (∀ bd ∈ bds, (mkLinuxDevice bd).detectPartitionsLinux be false = .ok (probeFn bd)) →
      SearchLinux be deviceID minSize 0 removableOnly =
        .ok ((bds.map probeFn).filter
          (fun d => !(removableOnly && !d.removable) && decide (minSize ≤ d.size)))) ∧
    (∀ (be : LinuxBackend) (deviceID : String) (minSize maxSize : Nat)
        (removableOnly : Bool) (bds : List blockDevice) (probeFn : blockDevice → Device),
      maxSize ≠ 0 →
      be.lsblkDisk deviceID = .ok bds →
      (∀ bd ∈ bds, (mkLinuxDevice bd).detectPartitionsLinux be false = .ok (probeFn bd)) →
      SearchLinux be deviceID minSize maxSize removableOnly =
        .ok ((bds.map probeFn).filter
          (fun d => !(removableOnly && !d.removable) && decide (minSize ≤ d.size) &&
            decide (d.size ≤ maxSize)))) ∧
    (∀ (be : LinuxBackend) (deviceID : String) (minSize maxSize : Nat)
        (removableOnly : Bool) (bds : List blockDevice) (probeFn : blockDevice → Device),
      maxSize ≠ 0 → minSize > maxSize →
      be.lsblkDisk deviceID = .ok bds →
      (∀ bd ∈ bds, (mkLinuxDevice bd).detectPartitionsLinux be false = .ok (probeFn bd)) →
      SearchLinux be deviceID minSize maxSize removableOnly = .ok []) ∧
    (∀ (be : WinBackend) (deviceID : String) (minSize : Nat) (removableOnly : Bool)
        (disks : List WinDisk) (probeFn : WinDisk → Device),
      be.connect = true →
      windowsGetDisks be (if deviceID ≠ "" then "WHERE Number=" ++ deviceID else "") =
        .ok disks →
      (∀ d ∈ disks, (mkWinDevice d).detectPartitionsWindows be true = .ok (probeFn d)) →
      SearchWindows be deviceID minSize 0 removableOnly =
        .ok ((disks.filter
          (fun d => !(removableOnly && !(mkWinDevice d).removable) &&
            decide (minSize ≤ (mkWinDevice d).size))).map probeFn)) ∧
    (∀ (be : WinBackend) (deviceID : String) (minSize maxSize : Nat)
        (removableOnly : Bool) (disks : List WinDisk) (probeFn : WinDisk → Device),
      maxSize ≠ 0 →
      be.connect = true →
      windowsGetDisks be (if deviceID ≠ "" then "WHERE Number=" ++ deviceID else "") =
        .ok disks →
      (∀ d ∈ disks, (mkWinDevice d).detectPartitionsWindows be true = .ok (probeFn d)) →
      SearchWindows be deviceID minSize maxSize removableOnly =
        .ok ((disks.filter
          (fun d => !(removableOnly && !(mkWinDevice d).removable) &&
            decide (minSize ≤ (mkWinDevice d).size) &&
            decide ((mkWinDevice d).size ≤ maxSize))).map probeFn)) ∧
    (∀ (be : WinBackend) (deviceID : String) (minSize maxSize : Nat)
        (removableOnly : Bool) (disks : List WinDisk) (probeFn : WinDisk → Device),
      maxSize ≠ 0 → minSize > maxSize →
      be.connect = true →
      windowsGetDisks be (if deviceID ≠ "" then "WHERE Number=" ++ deviceID else "") =
        .ok disks →
      (∀ d ∈ disks, (mkWinDevice d).detectPartitionsWindows be true = .ok (probeFn d)) →
      SearchWindows be deviceID minSize maxSize removableOnly = .ok []) := by
  have hlin : ∀ (be : LinuxBackend) (deviceID : String) (minSize maxSize : Nat)
      (removableOnly : Bool) (bds : List blockDevice) (probeFn : blockDevice → Device),
      be.lsblkDisk deviceID = .ok bds →
      (∀ bd ∈ bds, (mkLinuxDevice bd).detectPartitionsLinux be false = .ok (probeFn bd)) →
      SearchLinux be deviceID minSize maxSize removableOnly =
        .ok ((bds.map probeFn).filter (searchKeep minSize maxSize removableOnly)) := by
    intro be deviceID minSize maxSize removableOnly bds probeFn hdisk hp
    unfold SearchLinux
    rw [hdisk]
    exact searchLinuxLoop_filter be minSize maxSize removableOnly probeFn bds hp
  have hwin : ∀ (be : WinBackend) (deviceID : String) (minSize maxSize : Nat)
      (removableOnly : Bool) (disks : List WinDisk) (probeFn : WinDisk → Device),
      be.connect = true →
      windowsGetDisks be (if deviceID ≠ "" then "WHERE Number=" ++ deviceID else "") =
        .ok disks →
      (∀ d ∈ disks, (mkWinDevice d).detectPartitionsWindows be true = .ok (probeFn d)) →
      SearchWindows be deviceID minSize maxSize removableOnly =
        .ok ((disks.filter
          (fun d => searchKeep minSize maxSize removableOnly (mkWinDevice d))).map probeFn) := by
    intro be deviceID minSize maxSize removableOnly disks probeFn hcon hdisks hp
    unfold SearchWindows
    rw [hcon]
    simp only [Bool.not_true, Bool.false_eq_true, if_false]
    rw [hdisks]
    exact searchWindowsLoop_filter be minSize maxSize removableOnly probeFn disks hp
  refine ⟨?_, ?_, ?_, ?_, ?_, ?_⟩
  · intro be deviceID minSize removableOnly bds probeFn hdisk hp
    rw [hlin be deviceID minSize 0 removableOnly bds probeFn hdisk hp]
    congr 1
    refine List.filter_congr fun d _ => ?_
    simp [searchKeep, ← decide_not, Nat.not_lt]
  · intro be deviceID minSize maxSize removableOnly bds probeFn hM hdisk hp
    rw [hlin be deviceID minSize maxSize removableOnly bds probeFn hdisk hp]
    congr 1
    refine List.filter_congr fun d _ => ?_
    simp [searchKeep, hM, ← decide_not, Nat.not_lt, Bool.and_assoc]
  · intro be deviceID minSize maxSize removableOnly bds probeFn hM hlt hdisk hp
    rw [hlin be deviceID minSize maxSize removableOnly bds probeFn hdisk hp]
    congr 1
    refine List.filter_eq_nil_iff.mpr fun d _ => ?_
    simp only [searchKeep, Bool.and_eq_true, Bool.not_eq_true', decide_eq_false_iff_not,
      Nat.not_lt, Bool.and_eq_false_iff, decide_eq_true_eq, not_and]
    intro h
    omega
  · intro be deviceID minSize removableOnly disks probeFn hcon hdisks hp
    rw [hwin be deviceID minSize 0 removableOnly disks probeFn hcon hdisks hp]
    congr 1
    refine congrArg _ (List.filter_congr fun d _ => ?_)
    simp [searchKeep, ← decide_not, Nat.not_lt]
  · intro be deviceID minSize maxSize removableOnly disks probeFn hM hcon hdisks hp
    rw [hwin be deviceID minSize maxSize removableOnly disks probeFn hcon hdisks hp]
    congr 1
    refine congrArg _ (List.filter_congr fun d _ => ?_)
    simp [searchKeep, hM, ← decide_not, Nat.not_lt, Bool.and_assoc]
  · intro be deviceID minSize maxSize removableOnly disks probeFn hM hlt hcon hdisks hp
    rw [hwin be deviceID minSize maxSize removableOnly disks probeFn hcon hdisks hp]
    congr 1
    rw [List.filter_eq_nil_iff.mpr fun d _ => ?_]
    · rfl
    · simp only [searchKeep, Bool.and_eq_true, Bool.not_eq_true', decide_eq_false_iff_not,
        Nat.not_lt, Bool.and_eq_false_iff, decide_eq_true_eq, not_and]
      intro h
      omega

/-- A small removable linux disk (100 bytes). -/
def bdSmallDisk : blockDevice :=
  { name := "sdb", label := "", fstype := "", pttype := "gpt", type := "disk",
    size := 100, hotplug := true, mountpoint := "", vendor := "SanDisk",
    model := "Ultra" }

/-- A larger removable linux disk (200 bytes). -/
def bdLargeDisk : blockDevice :=
  { name := "sdc", label := "", fstype := "", pttype := "gpt", type := "disk",
    size := 200, hotplug := true, mountpoint := "", vendor := "SanDisk",
    model := "Ultra" }

/-- A linux backend enumerating the two test disks, each with no partitions. -/
def twoDisksBackend : LinuxBackend :=
  { lsblkDisk := fun _ => .ok [bdSmallDisk, bdLargeDisk],
    lsblkPart := fun _ => .ok [],
    sudoCmd := fun _ => true, tempDir := fun _ _ => none, removeAll := fun _ => true,
    dbusSystemBus := true, dbusGetDriveProp := fun _ => none,
    dbusPowerOff := fun _ => true }

theorem C7_search_size_filters_witness :
    twoDisksBackend.lsblkDisk "" = .ok [bdSmallDisk, bdLargeDisk] ∧
      (∀ bd ∈ [bdSmallDisk, bdLargeDisk],
        (mkLinuxDevice bd).detectPartitionsLinux twoDisksBackend false =
          .ok (mkLinuxDevice bd)) ∧
      SearchLinux twoDisksBackend "" 150 0 false =
        .ok (([bdSmallDisk, bdLargeDisk].map mkLinuxDevice).filter
          (fun d => !(false && !d.removable) && decide (150 ≤ d.size))) ∧
      ([bdSmallDisk, bdLargeDisk].map mkLinuxDevice).filter
          (fun d => !(false && !d.removable) && decide (150 ≤ d.size)) =
        [mkLinuxDevice bdLargeDisk] ∧
      SearchLinux twoDisksBackend "" 300 200 false = .ok [] :=
  ⟨rfl, by intro bd hb; fin_cases hb <;> rfl,
    C7_search_size_filters.1 twoDisksBackend "" 150 false [bdSmallDisk, bdLargeDisk]
      mkLinuxDevice rfl (by intro bd hb; fin_cases hb <;> rfl),
    by rfl,
    C7_search_size_filters.2.2.1 twoDisksBackend "" 300 200 false
      [bdSmallDisk, bdLargeDisk] mkLinuxDevice (by decide) (by decide) rfl
      (by intro bd hb; fin_cases hb <;> rfl)⟩

/-! ## C10: `Search` is all-or-nothing on partition-detection failure -/

theorem detectPartitionsLinux_ne_panics (device : Device) (be : LinuxBackend) (m : Bool) :
    device.detectPartitionsLinux be m ≠ .panics := by
  unfold Device.detectPartitionsLinux
  by_cases hid : device.id = ""
  · simp [hid]
  · rw [if_neg hid]
    cases hbe : be.lsblkPart device.id with
    | error e => cases e <;> simp
    | ok bds =>
      dsimp only
      split <;> simp

theorem windowsGetVolumes_ok_ne_nil (be : WinBackend) (path : String)
    (vols : List FileSystem) (h : windowsGetVolumes be path = .ok vols) : vols ≠ [] := by
  unfold windowsGetVolumes at h
  cases hv : be.getVolumes ("WHERE Path='" ++ escapeBackslashes path ++ "'") with
  | error e =>
    rw [hv] at h
    exact Except.noConfusion h
  | ok vs =>
    rw [hv] at h
    dsimp only at h
    by_cases hlen : vs.length < 1
    · rw [if_pos hlen] at h
      exact Except.noConfusion h
    · rw [if_neg hlen] at h
      cases h
      intro hnil
      rw [hnil] at hlen
      exact hlen (by simp)

theorem detectPartsWinLoop_ne_panics (be : WinBackend) (assignLetter : Bool) (nParts : Nat) :
    ∀ parts : List WinPartition, detectPartsWinLoop be assignLetter nParts parts ≠ .panics
  | [] => by simp [detectPartsWinLoop]
  | part :: rest => by
    have ih := detectPartsWinLoop_ne_panics be assignLetter nParts rest
    simp only [detectPartsWinLoop]
    by_cases hap : part.accessPaths.length < 1
    · rw [if_pos hap]
      exact ih
    · rw [if_neg hap]
      cases hv : windowsGetVolumes be (lastBackslashPath part.accessPaths) with
      | error e => simp
      | ok vols =>
        cases vols with
        | nil => exact absurd rfl (windowsGetVolumes_ok_ne_nil be _ _ hv)
        | cons v0 vrest =>
          dsimp only
          cases hr : detectPartsWinLoop be assignLetter nParts rest with
          | err e s => simp
          | panics => exact absurd hr ih
          | ok ps => simp

theorem detectPartitionsWindows_ne_panics (device : Device) (be : WinBackend) (a : Bool) :
    device.detectPartitionsWindows be a ≠ .panics := by
  unfold Device.detectPartitionsWindows
  by_cases hid : device.id = ""
  · simp [hid]
  · rw [if_neg hid]
    cases hcon : be.connect with
    | false => simp
    | true =>
      simp only [Bool.not_true, Bool.false_eq_true, if_false]
      cases hp : be.getPartitions ("WHERE DiskNumber=" ++ device.id) with
      | error e => simp
      | ok parts =>
        dsimp only
        cases hr : detectPartsWinLoop be a parts.length parts with
        | err e s => simp
        | panics => exact absurd hr (detectPartsWinLoop_ne_panics be a parts.length parts)
        | ok ps => simp

theorem searchLinuxLoop_err_of_fail (be : LinuxBackend) (minSize maxSize : Nat)
    (removableOnly : Bool) :
    ∀ bds : List blockDevice,
      (∃ bd ∈ bds, ∀ d, (mkLinuxDevice bd).detectPartitionsLinux be false ≠ .ok d) →
      ∃ e, searchLinuxLoop be minSize maxSize removableOnly bds = .err e
  | [], h => absurd h (by simp)
  | bd :: rest, h => by
    cases hd : (mkLinuxDevice bd).detectPartitionsLinux be false with
    | err e s => exact ⟨.errPartRead, by simp only [searchLinuxLoop, hd]⟩
    | panics => exact absurd hd (detectPartitionsLinux_ne_panics _ _ _)
    | ok device =>
      have hrest : ∃ b ∈ rest, ∀ d, (mkLinuxDevice b).detectPartitionsLinux be false ≠ .ok d := by
        rcases h with ⟨b, hb, hfail⟩
        rcases List.mem_cons.mp hb with hbd | hbr
        · subst hbd
          exact absurd hd (hfail device)
        · exact ⟨b, hbr, hfail⟩
      rcases searchLinuxLoop_err_of_fail be minSize maxSize removableOnly rest hrest with ⟨e, he⟩
      refine ⟨e, ?_⟩
      simp only [searchLinuxLoop, hd]
      by_cases h1 : removableOnly && !device.removable
      · rw [if_pos h1]
        exact he
      · rw [if_neg h1]
        by_cases h2 : device.size < minSize
        · rw [if_pos h2]
          exact he
        · rw [if_neg h2]
          by_cases h3 : decide (device.size > maxSize) && decide (maxSize ≠ 0)
          · rw [if_pos h3]
            exact he
          · rw [if_neg h3, he]

theorem searchWindowsLoop_err_of_fail (be : WinBackend) (minSize maxSize : Nat)
    (removableOnly : Bool) :
    ∀ disks : List WinDisk,
      (∃ d ∈ disks, searchKeep minSize maxSize removableOnly (mkWinDevice d) = true ∧
        ∀ dev, (mkWinDevice d).detectPartitionsWindows be true ≠ .ok dev) →
      ∃ e, searchWindowsLoop be minSize maxSize removableOnly disks = .err e
  | [], h => absurd h (by simp)
  | d :: rest, h => by
    have hrestOf : (searchKeep minSize maxSize removableOnly (mkWinDevice d) = false ∨
        ∃ dev, (mkWinDevice d).detectPartitionsWindows be true = .ok dev) →
        ∃ b ∈ rest, searchKeep minSize maxSize removableOnly (mkWinDevice b) = true ∧
          ∀ dev, (mkWinDevice b).detectPartitionsWindows be true ≠ .ok dev := by
      intro hhead
      rcases h with ⟨b, hb, hkeep, hfail⟩
      rcases List.mem_cons.mp hb with hbd | hbr
      · subst hbd
        rcases hhead with hk | ⟨dev, hdev⟩
        · rw [hkeep] at hk
          exact absurd hk (by simp)
        · exact absurd hdev (hfail dev)
      · exact ⟨b, hbr, hkeep, hfail⟩
    by_cases h1 : removableOnly && !(mkWinDevice d).removable
    · have hrest := hrestOf (Or.inl (by simp [searchKeep, h1]))
      rcases searchWindowsLoop_err_of_fail be minSize maxSize removableOnly rest hrest with
        ⟨e, he⟩
      exact ⟨e, by simp only [searchWindowsLoop]; rw [if_pos h1]; exact he⟩
    · by_cases h2 : (mkWinDevice d).size < minSize
      · have hrest := hrestOf (Or.inl (by simp [searchKeep, h2]))
        rcases searchWindowsLoop_err_of_fail be minSize maxSize removableOnly rest hrest with
          ⟨e, he⟩
        exact ⟨e, by simp only [searchWindowsLoop]; rw [if_neg h1, if_pos h2]; exact he⟩
      · by_cases h3 : decide ((mkWinDevice d).size > maxSize) && decide (maxSize ≠ 0)
        · have hrest := hrestOf (Or.inl (by
            simp only [Bool.and_eq_true, decide_eq_true_eq] at h3
            simp [searchKeep, h3.1, h3.2]))
          rcases searchWindowsLoop_err_of_fail be minSize maxSize removableOnly rest hrest with
            ⟨e, he⟩
          exact ⟨e, by
            simp only [searchWindowsLoop]
            rw [if_neg h1, if_neg h2, if_pos h3]
            exact he⟩
        · cases hd : (mkWinDevice d).detectPartitionsWindows be true with
          | err e s =>
            exact ⟨.errOther, by
              simp only [searchWindowsLoop, hd]
              rw [if_neg h1, if_neg h2, if_neg h3]⟩
          | panics => exact absurd hd (detectPartitionsWindows_ne_panics _ _ _)
          | ok dev =>
            have hrest := hrestOf (Or.inr ⟨dev, hd⟩)
            rcases searchWindowsLoop_err_of_fail be minSize maxSize removableOnly rest hrest
              with ⟨e, he⟩
            exact ⟨e, by
              simp only [searchWindowsLoop, hd]
              rw [if_neg h1, if_neg h2, if_neg h3, he]⟩

theorem searchDarwinLoop_err_of_fail (be : DarwinBackend) (minSize maxSize : Nat)
    (removableOnly : Bool) :
    ∀ ids : List String,
      (∀ i ∈ ids, NewDarwin be i ≠ .panics) →
      (∃ i ∈ ids, regExPartitionMatch i = false ∧ ∀ d, NewDarwin be i ≠ .ok d) →
      ∃ e, searchDarwinLoop be minSize maxSize removableOnly ids = .err e
  | [], _, h => absurd h (by simp)
  | id :: rest, hnp, h => by
    have hnpRest : ∀ i ∈ rest, NewDarwin be i ≠ .panics :=
      fun i hi => hnp i (by simp [hi])
    have hrestOf : (regExPartitionMatch id = true ∨ ∃ d, NewDarwin be id = .ok d) →
        ∃ i ∈ rest, regExPartitionMatch i = false ∧ ∀ d, NewDarwin be i ≠ .ok d := by
      intro hhead
      rcases h with ⟨i, hi, hre, hfail⟩
      rcases List.mem_cons.mp hi with hid | hir
      · subst hid
        rcases hhead with hm | ⟨d, hd⟩
        · rw [hre] at hm
          exact absurd hm (by simp)
        · exact absurd hd (hfail d)
      · exact ⟨i, hir, hre, hfail⟩
    by_cases hskip : regExPartitionMatch id
    · have hrest := hrestOf (Or.inl hskip)
      rcases searchDarwinLoop_err_of_fail be minSize maxSize removableOnly rest hnpRest hrest
        with ⟨e, he⟩
      exact ⟨e, by simp only [searchDarwinLoop]; rw [if_pos hskip]; exact he⟩
    · cases hd : NewDarwin be id with
      | err e0 =>
        exact ⟨.errDetectDisk, by
          simp only [searchDarwinLoop, hd]
          rw [if_neg hskip]⟩
      | panics => exact absurd hd (hnp id (by simp))
      | ok device =>
        have hrest := hrestOf (Or.inr ⟨device, hd⟩)
        rcases searchDarwinLoop_err_of_fail be minSize maxSize removableOnly rest hnpRest hrest
          with ⟨e, he⟩
        refine ⟨e, ?_⟩
        simp only [searchDarwinLoop, hd]
        rw [if_neg hskip]
        by_cases h1 : removableOnly && !device.removable
        · rw [if_pos h1]
          exact he
        · rw [if_neg h1]
          by_cases h2 : device.size < minSize
          · rw [if_pos h2]
            exact he
          · rw [if_neg h2]
            by_cases h3 : decide (device.size > maxSize) && decide (maxSize ≠ 0)
            · rw [if_pos h3]
              exact he
            · rw [if_neg h3, he]

/-- C10: `Search` is all-or-nothing — when the partition probe fails for any
device the search actually probes (on windows only devices passing the
filters are probed; on darwin the probe is `New`, and ids matching the
partition regex are skipped), `Search` returns only an error and discards any
devices probed successfully earlier in the same call. -/
theorem C10_search_all_or_nothing :
    (∀ (be : LinuxBackend) (deviceID : String) (minSize maxSize : Nat)
        (removableOnly : Bool) (bds : List blockDevice) (bd : blockDevice),
      be.lsblkDisk deviceID = .ok bds → bd ∈ bds →
      (∀ d, (mkLinuxDevice bd).detectPartitionsLinux be false ≠ .ok d) →
      ∃ e, SearchLinux be deviceID minSize maxSize removableOnly = .err e) ∧
    (∀ (be : WinBackend) (deviceID : String) (minSize maxSize : Nat)
        (removableOnly : Bool) (disks : List WinDisk) (d : WinDisk),
      be.connect = true →
      windowsGetDisks be (if deviceID ≠ "" then "WHERE Number=" ++ deviceID else "") =
        .ok disks →
      d ∈ disks → searchKeep minSize maxSize removableOnly (mkWinDevice d) = true →
      (∀ dev, (mkWinDevice d).detectPartitionsWindows be true ≠ .ok dev) →
      ∃ e, SearchWindows be deviceID minSize maxSize removableOnly = .err e) ∧
    (∀ (be : DarwinBackend) (deviceID : String) (minSize maxSize : Nat)
        (removableOnly : Bool) (pl : plistDiskUtilList) (id : String),
      be.list deviceID = .ok pl →
      (∀ i ∈ pl.allDisks, NewDarwin be i ≠ .panics) →
      id ∈ pl.allDisks → regExPartitionMatch id = false →
      (∀ d, NewDarwin be id ≠ .ok d) →
      ∃ e, SearchDarwin be deviceID minSize maxSize removableOnly = .err e) := by
  refine ⟨?_, ?_, ?_⟩
  · intro be deviceID minSize maxSize removableOnly bds bd hdisk hmem hfail
    rcases searchLinuxLoop_err_of_fail be minSize maxSize removableOnly bds
      ⟨bd, hmem, hfail⟩ with ⟨e, he⟩
    refine ⟨e, ?_⟩
    unfold SearchLinux
    rw [hdisk]
    exact he
  · intro be deviceID minSize maxSize removableOnly disks d hcon hdisks hmem hkeep hfail
    rcases searchWindowsLoop_err_of_fail be minSize maxSize removableOnly disks
      ⟨d, hmem, hkeep, hfail⟩ with ⟨e, he⟩
    refine ⟨e, ?_⟩
    unfold SearchWindows
    rw [hcon]
    simp only [Bool.not_true, Bool.false_eq_true, if_false]
    rw [hdisks]
    exact he
  · intro be deviceID minSize maxSize removableOnly pl id hlist hnp hmem hre hfail
    unfold SearchDarwin
    rw [hlist]
    dsimp only
    by_cases hempty : pl.allDisksAndPartitions.length < 1
    · exact ⟨.errEmpty, by rw [if_pos hempty]⟩
    · rw [if_neg hempty]
      exact searchDarwinLoop_err_of_fail be minSize maxSize removableOnly pl.allDisks hnp
        ⟨id, hmem, hre, hfail⟩

/-- A linux block device whose per-device partition probe will fail. -/
def bdProbeFails : blockDevice :=
  { name := "sdx", label := "", fstype := "", pttype := "gpt", type := "disk",
    size := 1000, hotplug := true, mountpoint := "", vendor := "V", model := "M" }

/-- A linux backend where enumeration succeeds but every per-device partition
listing fails. -/
def linuxProbeFailBackend : LinuxBackend :=
  { lsblkDisk := fun _ => .ok [bdProbeFails],
    lsblkPart := fun _ => .error .cmdFailed,
    sudoCmd := fun _ => true, tempDir := fun _ _ => none, removeAll := fun _ => true,
    dbusSystemBus := true, dbusGetDriveProp := fun _ => none,
    dbusPowerOff := fun _ => true }

/-- A windows disk whose partition query will fail. -/
def winDiskProbeFails : WinDisk :=
  { number := 3, busType := 7, size := 1000, manufacturer := "V", model := "M",
    partitionStyle := GptStyle }

/-- A windows backend where the disk query succeeds but the partition query
fails. -/
def winProbeFailBackend : WinBackend :=
  { connect := true, getDisks := fun _ => .ok [winDiskProbeFails],
    getPartitions := fun _ => .error (), getVolumes := fun _ => .ok [],
    availableDrives := [], setPartition := fun _ _ _ => .okOut,
    getVolume := fun _ => .okLabel "", removeAccessPath := fun _ _ _ => .okOut,
    fnWipe := true, fnInitialize := true, fnPartition := fun _ _ => true }

/-- The `diskutil list` payload reporting one disk id, `disk9`. -/
def darwinProbeFailList : plistDiskUtilList :=
  { allDisks := ["disk9"],
    allDisksAndPartitions :=
      [{ content := "GUID_partition_scheme", deviceIdentifier := "disk9",
         partitions := [], size := 1000 }] }

/-- A darwin backend where `diskutil list` succeeds with one disk id but
`diskutil info` (inside `New`) fails. -/
def darwinProbeFailBackend : DarwinBackend :=
  { list := fun _ => .ok darwinProbeFailList,
    info := fun _ => .error .cmdFailed,
    eraseDisk := fun _ => true, partitionDisk := fun _ _ => true,
    eraseVolume := fun _ => true, unmountDisk := fun _ => true,
    eject := fun _ => true, mount := fun _ => true, reformat := fun _ => true }

theorem C10_search_all_or_nothing_witness :
    (∃ e, SearchLinux linuxProbeFailBackend "" 0 0 false = .err e) ∧
      (∃ e, SearchWindows winProbeFailBackend "" 0 0 false = .err e) ∧
      (∃ e, SearchDarwin darwinProbeFailBackend "" 0 0 false = .err e) :=
  have hlinDet : (mkLinuxDevice bdProbeFails).detectPartitionsLinux linuxProbeFailBackend
      false = .err .errLsblk (mkLinuxDevice bdProbeFails) := rfl
  have hwinDet : (mkWinDevice winDiskProbeFails).detectPartitionsWindows winProbeFailBackend
      true = .err .errOther (mkWinDevice winDiskProbeFails) := rfl
  have hdarNew : NewDarwin darwinProbeFailBackend "disk9" = .err .errDiskutil := rfl
  ⟨C10_search_all_or_nothing.1 linuxProbeFailBackend "" 0 0 false [bdProbeFails]
      bdProbeFails rfl (by simp)
      (fun d h => Out.noConfusion (hlinDet.symm.trans h)),
    C10_search_all_or_nothing.2.1 winProbeFailBackend "" 0 0 false [winDiskProbeFails]
      winDiskProbeFails rfl rfl (by simp) rfl
      (fun dev h => Out.noConfusion (hwinDet.symm.trans h)),
    C10_search_all_or_nothing.2.2 darwinProbeFailBackend "" 0 0 false
      darwinProbeFailList "disk9" rfl
      (by
        intro i hi
        fin_cases hi
        intro h
        exact Res.noConfusion (hdarNew.symm.trans h))
      (by simp [darwinProbeFailList]) rfl
      (fun d h => Res.noConfusion (hdarNew.symm.trans h))⟩

end WinopsStorage
